import Mathlib

/-!
# The ZMK debounce filter

A shallow embedding of `app/module/lib/zmk_debounce/debounce.c` and the
properties its specification states about it.

How the C integers are embedded.  The header `zmk/debounce.h`, which declares
the two structures and the constant `DEBOUNCE_COUNTER_MAX`, is not among the
sources, so the widths of the fields are not known here.
`DEBOUNCE_COUNTER_MAX` is therefore a parameter of every function that uses
it, and so is the build option `CONFIG_ZMK_DEBOUNCE_EAGER` that the
preprocessor tests.  The counter and the two delays are unsigned in the
program and are natural numbers here; `elapsed_ms` is a C `int` and is an
integer here.  Arithmetic is exact: the sum of the two delays is taken in the
naturals, a comparison or sum that mixes the counter with `elapsed_ms` is
carried out in the integers, and a value written back to the counter is
converted with `Int.toNat`, which is the identity on the non-negative values
that arise whenever `elapsed_ms` is non-negative.  No value is reduced modulo
a word size in these functions.

Two readings give the integers their widths where a claim depends on them, and
take what the absent header declares as parameters.
`zmk_debounce_update_eager_widths` is the Eager build with `flip_threshold` a
`uint32_t` and the load of the counter reduced to the counter field, of width
`COUNTER_BITS`; it is the Eager branch of `zmk_debounce_update` wherever the sum
of the delays is below `2^32` and the loaded delay fits the field
(`eager_widths_eq_exact`).  `increment_counter_int32` is `increment_counter`
with the sum in 32-bit arithmetic and the comparison signed or unsigned; it
agrees with the exact `increment_counter` whenever
`counter + elapsed_ms` is at most `2^31 - 1` (`increment_counter_int32_eq`).
-/

namespace ZmkDebounce

/-! ## Data model -/

/-- Timing configuration, `struct zmk_debounce_config`. -/
structure zmk_debounce_config where
  debounce_press_ms : Nat
  debounce_release_ms : Nat
deriving DecidableEq, Repr

/-- Per-switch state, `struct zmk_debounce_state`. -/
structure zmk_debounce_state where
  pressed : Bool
  changed : Bool
  counter : Nat
deriving DecidableEq, Repr

/-- The state of a switch at system start: not pressed, counter 0, not changed. -/
def zero_state : zmk_debounce_state :=
  { pressed := false, changed := false, counter := 0 }

/-! ## The functions of debounce.c -/

/-- Deferred build (`CONFIG_ZMK_DEBOUNCE_EAGER` undefined): the delay of the
transition away from the current state. -/
def get_threshold (state : zmk_debounce_state) (config : zmk_debounce_config) : Nat :=
  if state.pressed then config.debounce_release_ms else config.debounce_press_ms

/-- Eager build (`CONFIG_ZMK_DEBOUNCE_EAGER` defined): the value the counter is
loaded with when a mismatch arrives while the counter is reset. -/
def get_counter (state : zmk_debounce_state) (config : zmk_debounce_config) : Nat :=
  if !state.pressed then config.debounce_release_ms else config.debounce_press_ms

/-- Saturating increment of the counter. -/
def increment_counter (DEBOUNCE_COUNTER_MAX : Nat) (state : zmk_debounce_state)
    (elapsed_ms : Int) : zmk_debounce_state :=
  if (state.counter : Int) + elapsed_ms > (DEBOUNCE_COUNTER_MAX : Int) then
    { state with counter := DEBOUNCE_COUNTER_MAX }
  else
    { state with counter := ((state.counter : Int) + elapsed_ms).toNat }

/-- Decrement of the counter, floored at 0. -/
def decrement_counter (state : zmk_debounce_state) (elapsed_ms : Int) : zmk_debounce_state :=
  if (state.counter : Int) < elapsed_ms then
    { state with counter := 0 }
  else
    { state with counter := ((state.counter : Int) - elapsed_ms).toNat }

/-- One call of `zmk_debounce_update`; the result is the state the call leaves
behind.  `CONFIG_ZMK_DEBOUNCE_EAGER` selects the branch of the two
preprocessor conditionals.  In the Eager branch the sum of the two delays and
the value loaded into the counter are exact here;
`zmk_debounce_update_eager_widths` gives them their widths. -/
def zmk_debounce_update (CONFIG_ZMK_DEBOUNCE_EAGER : Bool) (DEBOUNCE_COUNTER_MAX : Nat)
    (state : zmk_debounce_state) (active : Bool) (elapsed_ms : Int)
    (config : zmk_debounce_config) : zmk_debounce_state :=
  let state := { state with changed := false }
  if active == state.pressed then
    decrement_counter state elapsed_ms
  else
    let flip_threshold :=
      if CONFIG_ZMK_DEBOUNCE_EAGER then
        config.debounce_release_ms + config.debounce_press_ms
      else
        get_threshold state config
    if CONFIG_ZMK_DEBOUNCE_EAGER && state.counter == 0 then
      let state := { state with counter := get_counter state config }
      { state with pressed := !state.pressed, changed := true }
    else if state.counter < flip_threshold then
      increment_counter DEBOUNCE_COUNTER_MAX state elapsed_ms
    else
      let state := { state with counter := 0 }
      { state with pressed := !state.pressed, changed := true }

/-- Query `zmk_debounce_is_active`. -/
def zmk_debounce_is_active (state : zmk_debounce_state) : Bool :=
  state.pressed || decide (state.counter > 0)

/-- Query `zmk_debounce_is_pressed`. -/
def zmk_debounce_is_pressed (state : zmk_debounce_state) : Bool := state.pressed

/-- Query `zmk_debounce_get_changed`. -/
def zmk_debounce_get_changed (state : zmk_debounce_state) : Bool := state.changed

/-! ## Sequences of calls -/

/-- The state after a sequence of `zmk_debounce_update` calls, each given as
its raw reading and its elapsed time, made in order on the same switch. -/
def run (CONFIG_ZMK_DEBOUNCE_EAGER : Bool) (DEBOUNCE_COUNTER_MAX : Nat)
    (config : zmk_debounce_config) :
    zmk_debounce_state → List (Bool × Int) → zmk_debounce_state
  | state, [] => state
  | state, call :: calls =>
    run CONFIG_ZMK_DEBOUNCE_EAGER DEBOUNCE_COUNTER_MAX config
      (zmk_debounce_update CONFIG_ZMK_DEBOUNCE_EAGER DEBOUNCE_COUNTER_MAX state call.1 call.2 config)
      calls

/-- The calls of a scan that reads the same raw value every time, with the
given elapsed times. -/
def constant_reading (active : Bool) (elapsed : List Int) : List (Bool × Int) :=
  elapsed.map (fun e => (active, e))

/-- The total elapsed time of the calls whose raw reading was `true`. -/
def active_time (calls : List (Bool × Int)) : Int :=
  ((calls.filter (fun call => call.1)).map (fun call => call.2)).sum

/-! ## The Eager build with its integer widths -/

/-- The Eager build of `zmk_debounce_update` (`CONFIG_ZMK_DEBOUNCE_EAGER`
defined) with the two widths that show in its disagreeing branch.
`flip_threshold` is declared `const uint32_t`, so the sum of the two delays is
reduced modulo `2^32`.  The assignment
`state->counter = get_counter(state, config)` stores a `uint32_t` in the
counter field; the width of that field, `COUNTER_BITS`, is declared in the
header that is not among the sources and is a parameter, and the value stored
is reduced modulo `2^COUNTER_BITS`.  The agreeing branch, the increment and the
reset to 0 are those of `zmk_debounce_update`. -/
def zmk_debounce_update_eager_widths (COUNTER_BITS : Nat) (DEBOUNCE_COUNTER_MAX : Nat)
    (state : zmk_debounce_state) (active : Bool) (elapsed_ms : Int)
    (config : zmk_debounce_config) : zmk_debounce_state :=
  let state := { state with changed := false }
  if active == state.pressed then
    decrement_counter state elapsed_ms
  else
    let flip_threshold :=
      (config.debounce_release_ms + config.debounce_press_ms) % 4294967296
    if state.counter == 0 then
      let state := { state with counter := get_counter state config % 2 ^ COUNTER_BITS }
      { state with pressed := !state.pressed, changed := true }
    else if state.counter < flip_threshold then
      increment_counter DEBOUNCE_COUNTER_MAX state elapsed_ms
    else
      let state := { state with counter := 0 }
      { state with pressed := !state.pressed, changed := true }

/-! ## The 32-bit reading of the saturating increment -/

/-- The value an integer has in a 32-bit signed `int`, overflow being reduction
modulo `2^32` into the range from `-2^31` to `2^31 - 1`. -/
def wrap_int32 (value : Int) : Int :=
  (value + 2147483648) % 4294967296 - 2147483648

/-- The function `increment_counter` with the sum `state->counter + elapsed_ms`
evaluated in 32-bit arithmetic.  The types of `DEBOUNCE_COUNTER_MAX` and of the
counter field are declared in the header that is not among the sources, so the
kind of the comparison and the width of the field are parameters.  With
`COMPARE_SIGNED` true the counter is promoted to `int`, the constant is an
`int`, and the test compares the 32-bit signed sum with it.  With
`COMPARE_SIGNED` false the comparison is unsigned, because the constant is
unsigned or because the counter is an unsigned type that is not promoted: the
sum enters the test as a 32-bit unsigned value.  `COUNTER_BITS` is the width of
the unsigned counter field, to which the value written back by
`state->counter += elapsed_ms` is reduced. -/
def increment_counter_int32 (COMPARE_SIGNED : Bool) (COUNTER_BITS : Nat)
    (DEBOUNCE_COUNTER_MAX : Nat) (state : zmk_debounce_state) (elapsed_ms : Int) :
    zmk_debounce_state :=
  if (if COMPARE_SIGNED then wrap_int32 ((state.counter : Int) + elapsed_ms)
      else wrap_int32 ((state.counter : Int) + elapsed_ms) % 4294967296)
      > (DEBOUNCE_COUNTER_MAX : Int) then
    { state with counter := DEBOUNCE_COUNTER_MAX }
  else
    { state with
      counter :=
        (wrap_int32 ((state.counter : Int) + elapsed_ms) % (2 ^ COUNTER_BITS : Int)).toNat }

/-! ## Single calls -/

/-- The saturating increment computes the minimum of the exact sum and the ceiling. -/
theorem increment_counter_eq (DEBOUNCE_COUNTER_MAX : Nat) (state : zmk_debounce_state)
    (elapsed_ms : Int) :
    increment_counter DEBOUNCE_COUNTER_MAX state elapsed_ms =
      { pressed := state.pressed, changed := state.changed,
        counter := (min ((state.counter : Int) + elapsed_ms) DEBOUNCE_COUNTER_MAX).toNat } := by
  unfold increment_counter
  split
  · rename_i h
    simp [min_eq_right (le_of_lt h)]
  · rename_i h
    simp [min_eq_left (not_lt.mp h)]

/-- The decrement computes the maximum of the exact difference and 0. -/
theorem decrement_counter_eq (state : zmk_debounce_state) (elapsed_ms : Int) :
    decrement_counter state elapsed_ms =
      { pressed := state.pressed, changed := state.changed,
        counter := (max ((state.counter : Int) - elapsed_ms) 0).toNat } := by
  unfold decrement_counter
  split
  · rename_i h
    have h2 : (state.counter : Int) - elapsed_ms ≤ 0 := by omega
    simp [max_eq_right h2]
  · rename_i h
    have h2 : 0 ≤ (state.counter : Int) - elapsed_ms := by omega
    simp [max_eq_left h2]

/-- A call whose raw reading agrees with the debounced state, either build. -/
theorem update_agree (EAGER : Bool) (DEBOUNCE_COUNTER_MAX : Nat) (state : zmk_debounce_state)
    (active : Bool) (elapsed_ms : Int) (config : zmk_debounce_config)
    (h : active = state.pressed) :
    zmk_debounce_update EAGER DEBOUNCE_COUNTER_MAX state active elapsed_ms config =
      { pressed := state.pressed, changed := false,
        counter := (max ((state.counter : Int) - elapsed_ms) 0).toNat } := by
  subst h
  simp [zmk_debounce_update, decrement_counter_eq]

/-- Deferred build, disagreeing call below the threshold: the counter is incremented. -/
theorem update_deferred_below (DEBOUNCE_COUNTER_MAX : Nat) (state : zmk_debounce_state)
    (active : Bool) (elapsed_ms : Int) (config : zmk_debounce_config)
    (h : active ≠ state.pressed) (hlt : state.counter < get_threshold state config) :
    zmk_debounce_update false DEBOUNCE_COUNTER_MAX state active elapsed_ms config =
      { pressed := state.pressed, changed := false,
        counter := (min ((state.counter : Int) + elapsed_ms) DEBOUNCE_COUNTER_MAX).toNat } := by
  have hne : (active == state.pressed) = false := by simpa using h
  have hlt2 : state.counter <
      get_threshold { pressed := state.pressed, changed := false, counter := state.counter }
        config := hlt
  simp [zmk_debounce_update, hne, hlt2, increment_counter_eq]

/-- Deferred build, disagreeing call at or above the threshold: the state flips. -/
theorem update_deferred_reached (DEBOUNCE_COUNTER_MAX : Nat) (state : zmk_debounce_state)
    (active : Bool) (elapsed_ms : Int) (config : zmk_debounce_config)
    (h : active ≠ state.pressed) (hge : get_threshold state config ≤ state.counter) :
    zmk_debounce_update false DEBOUNCE_COUNTER_MAX state active elapsed_ms config =
      { pressed := !state.pressed, changed := true, counter := 0 } := by
  have hne : (active == state.pressed) = false := by simpa using h
  have hge2 : ¬ state.counter <
      get_threshold { pressed := state.pressed, changed := false, counter := state.counter }
        config := Nat.not_lt.mpr hge
  simp [zmk_debounce_update, hne, hge2]

/-- Eager build, disagreeing call with the counter reset: the state flips at once
and the counter is loaded with `get_counter`. -/
theorem update_eager_reset (DEBOUNCE_COUNTER_MAX : Nat) (state : zmk_debounce_state)
    (active : Bool) (elapsed_ms : Int) (config : zmk_debounce_config)
    (h : active ≠ state.pressed) (h0 : state.counter = 0) :
    zmk_debounce_update true DEBOUNCE_COUNTER_MAX state active elapsed_ms config =
      { pressed := !state.pressed, changed := true, counter := get_counter state config } := by
  have hne : (active == state.pressed) = false := by simpa using h
  simp [zmk_debounce_update, hne, h0, get_counter]

/-- Eager build, disagreeing call with a running counter below the combined delay. -/
theorem update_eager_below (DEBOUNCE_COUNTER_MAX : Nat) (state : zmk_debounce_state)
    (active : Bool) (elapsed_ms : Int) (config : zmk_debounce_config)
    (h : active ≠ state.pressed) (h0 : state.counter ≠ 0)
    (hlt : state.counter < config.debounce_release_ms + config.debounce_press_ms) :
    zmk_debounce_update true DEBOUNCE_COUNTER_MAX state active elapsed_ms config =
      { pressed := state.pressed, changed := false,
        counter := (min ((state.counter : Int) + elapsed_ms) DEBOUNCE_COUNTER_MAX).toNat } := by
  have hne : (active == state.pressed) = false := by simpa using h
  simp [zmk_debounce_update, hne, h0, hlt, increment_counter_eq]

/-- Eager build, disagreeing call with a running counter at or above the combined delay. -/
theorem update_eager_reached (DEBOUNCE_COUNTER_MAX : Nat) (state : zmk_debounce_state)
    (active : Bool) (elapsed_ms : Int) (config : zmk_debounce_config)
    (h : active ≠ state.pressed) (h0 : state.counter ≠ 0)
    (hge : config.debounce_release_ms + config.debounce_press_ms ≤ state.counter) :
    zmk_debounce_update true DEBOUNCE_COUNTER_MAX state active elapsed_ms config =
      { pressed := !state.pressed, changed := true, counter := 0 } := by
  have hne : (active == state.pressed) = false := by simpa using h
  simp [zmk_debounce_update, hne, h0, Nat.not_lt.mpr hge]

/-! ## Sequences: general facts -/

/-- Running two batches of calls one after the other. -/
theorem run_append (EAGER : Bool) (DEBOUNCE_COUNTER_MAX : Nat) (config : zmk_debounce_config)
    (state : zmk_debounce_state) (first second : List (Bool × Int)) :
    run EAGER DEBOUNCE_COUNTER_MAX config state (first ++ second) =
      run EAGER DEBOUNCE_COUNTER_MAX config
        (run EAGER DEBOUNCE_COUNTER_MAX config state first) second := by
  induction first generalizing state with
  | nil => rfl
  | cons call rest ih => simp [run, ih]

/-- The first `n + 1` calls are the first `n` calls followed by call `n`. -/
theorem run_take_succ (EAGER : Bool) (DEBOUNCE_COUNTER_MAX : Nat) (config : zmk_debounce_config)
    (state : zmk_debounce_state) (calls : List (Bool × Int)) (n : Nat) (hn : n < calls.length) :
    run EAGER DEBOUNCE_COUNTER_MAX config state (calls.take (n + 1)) =
      zmk_debounce_update EAGER DEBOUNCE_COUNTER_MAX
        (run EAGER DEBOUNCE_COUNTER_MAX config state (calls.take n))
        (calls.get ⟨n, hn⟩).1 (calls.get ⟨n, hn⟩).2 config := by
  have h : calls.take (n + 1) = calls.take n ++ [calls.get ⟨n, hn⟩] := by
    rw [← List.take_concat_get calls n hn]
    simp
  rw [h, run_append]
  rfl

/-- Cumulative elapsed time: one more call adds its elapsed time. -/
theorem sum_take_succ (elapsed : List Int) (n : Nat) (hn : n < elapsed.length) :
    (elapsed.take (n + 1)).sum = (elapsed.take n).sum + elapsed.get ⟨n, hn⟩ := by
  have h : elapsed.take (n + 1) = elapsed.take n ++ [elapsed.get ⟨n, hn⟩] := by
    rw [← List.take_concat_get elapsed n hn]
    simp
  rw [h, List.sum_append, List.sum_singleton]

/-- Cumulative elapsed time is non-negative when every elapsed time is. -/
theorem sum_take_nonneg (elapsed : List Int) (helapsed : ∀ e ∈ elapsed, 0 ≤ e) (n : Nat) :
    0 ≤ (elapsed.take n).sum :=
  List.sum_nonneg (fun e he => helapsed e (List.mem_of_mem_take he))

/-- Cumulative elapsed time does not decrease when every elapsed time is
non-negative. -/
theorem sum_take_mono (elapsed : List Int) (helapsed : ∀ e ∈ elapsed, 0 ≤ e) (k n : Nat)
    (hkn : k ≤ n) : (elapsed.take k).sum ≤ (elapsed.take n).sum := by
  induction n with
  | zero =>
    have : k = 0 := Nat.le_zero.mp hkn
    subst this
    exact le_refl _
  | succ m ih =>
    rcases Nat.lt_or_ge k (m + 1) with hlt | hge
    · have h1 := ih (Nat.lt_succ_iff.mp hlt)
      by_cases hm : m < elapsed.length
      · rw [sum_take_succ elapsed m hm]
        have := helapsed _ (List.get_mem elapsed m hm)
        omega
      · have e1 : elapsed.take (m + 1) = elapsed := List.take_of_length_le (by omega)
        have e2 : elapsed.take m = elapsed := List.take_of_length_le (by omega)
        rw [e1]
        rw [e2] at h1
        exact h1
    · have : k = m + 1 := le_antisymm hkn hge
      subst this
      exact le_refl _

/-- The calls of a constant reading: the raw value and elapsed time of call `n`. -/
theorem constant_reading_get (active : Bool) (elapsed : List Int) (n : Nat)
    (hn : n < (constant_reading active elapsed).length) (hn2 : n < elapsed.length) :
    (constant_reading active elapsed).get ⟨n, hn⟩ = (active, elapsed.get ⟨n, hn2⟩) := by
  simp [constant_reading]

/-- Taking a first part of a constant reading. -/
theorem constant_reading_take (active : Bool) (elapsed : List Int) (n : Nat) :
    constant_reading active (elapsed.take n) = (constant_reading active elapsed).take n := by
  simp [constant_reading, List.map_take]

/-! ## Deferred build: a released switch that reads `true` on every call -/

/-- Deferred build, from the zero state with every reading `true`: as long as
the counter left by each earlier batch of calls is below the press delay, the
switch is still released and the counter holds the saturated cumulative
elapsed time. -/
theorem deferred_hold_below (DEBOUNCE_COUNTER_MAX : Nat) (config : zmk_debounce_config)
    (elapsed : List Int) (helapsed : ∀ e ∈ elapsed, 0 ≤ e) (n : Nat) (hn : n ≤ elapsed.length)
    (hbelow : ∀ k < n, min (elapsed.take k).sum (DEBOUNCE_COUNTER_MAX : Int)
      < (config.debounce_press_ms : Int)) :
    run false DEBOUNCE_COUNTER_MAX config zero_state (constant_reading true (elapsed.take n)) =
      { pressed := false, changed := false,
        counter := (min (elapsed.take n).sum (DEBOUNCE_COUNTER_MAX : Int)).toNat } := by
  induction n with
  | zero => simp [constant_reading, run, zero_state]
  | succ m ih =>
    have hm : m < elapsed.length := hn
    have hm2 : m < (constant_reading true elapsed).length := by
      simpa [constant_reading] using hm
    have ihm := ih (Nat.le_of_lt hm) (fun k hk => hbelow k (Nat.lt_succ_of_lt hk))
    have hlt := hbelow m (Nat.lt_succ_self m)
    have hs := sum_take_nonneg elapsed helapsed m
    have he := helapsed _ (List.get_mem elapsed m hm)
    rw [constant_reading_take, run_take_succ _ _ _ _ _ m hm2, ← constant_reading_take, ihm,
      constant_reading_get true elapsed m hm2 hm, sum_take_succ elapsed m hm]
    rw [update_deferred_below]
    · simp only [zmk_debounce_state.mk.injEq, true_and]
      omega
    · simp
    · simp only [get_threshold, Bool.false_eq_true, if_false]
      omega

/-! ## Deferred build: arbitrary readings -/

/-- The active time of a batch of calls followed by one more call. -/
theorem active_time_concat (calls : List (Bool × Int)) (call : Bool × Int) :
    active_time (calls ++ [call]) = active_time calls + (if call.1 then call.2 else 0) := by
  cases h : call.1 <;> simp [active_time, List.filter_append, h]

/-- The active time of the first `n + 1` calls. -/
theorem active_time_take_succ (calls : List (Bool × Int)) (n : Nat) (hn : n < calls.length) :
    active_time (calls.take (n + 1)) =
      active_time (calls.take n)
        + (if (calls.get ⟨n, hn⟩).1 then (calls.get ⟨n, hn⟩).2 else 0) := by
  have h : calls.take (n + 1) = calls.take n ++ [calls.get ⟨n, hn⟩] := by
    rw [← List.take_concat_get calls n hn]
    simp
  rw [h, active_time_concat]

/-- Deferred build, released switch: one call raises the counter by at most the
elapsed time of the call, and only when the reading is `true`. -/
theorem deferred_step_counter_le (DEBOUNCE_COUNTER_MAX : Nat) (config : zmk_debounce_config)
    (state : zmk_debounce_state) (active : Bool) (elapsed_ms : Int) (bound : Int)
    (hpressed : state.pressed = false) (helapsed : 0 ≤ elapsed_ms)
    (hbound : (state.counter : Int) ≤ bound) :
    ((zmk_debounce_update false DEBOUNCE_COUNTER_MAX state active elapsed_ms config).counter : Int)
      ≤ bound + (if active then elapsed_ms else 0) := by
  cases active
  · rw [update_agree false DEBOUNCE_COUNTER_MAX state false elapsed_ms config hpressed.symm]
    simp only [Bool.false_eq_true, if_false]
    omega
  · have hne : true ≠ state.pressed := by simp [hpressed]
    rcases Nat.lt_or_ge state.counter (get_threshold state config) with hlt | hge
    · rw [update_deferred_below DEBOUNCE_COUNTER_MAX state true elapsed_ms config hne hlt]
      simp only [if_true]
      omega
    · rw [update_deferred_reached DEBOUNCE_COUNTER_MAX state true elapsed_ms config hne hge]
      simp only [if_true]
      omega

/-- Deferred build: a call that turns a released switch into a pressed one read
`true` and found the counter at or above the press delay. -/
theorem deferred_step_press (DEBOUNCE_COUNTER_MAX : Nat) (config : zmk_debounce_config)
    (state : zmk_debounce_state) (active : Bool) (elapsed_ms : Int)
    (hpressed : state.pressed = false)
    (hflip : (zmk_debounce_update false DEBOUNCE_COUNTER_MAX state active elapsed_ms
      config).pressed = true) :
    active = true ∧ config.debounce_press_ms ≤ state.counter := by
  cases active
  · rw [update_agree false DEBOUNCE_COUNTER_MAX state false elapsed_ms config hpressed.symm,
      hpressed] at hflip
    exact absurd hflip (by simp)
  · have hne : true ≠ state.pressed := by simp [hpressed]
    rcases Nat.lt_or_ge state.counter (get_threshold state config) with hlt | hge
    · rw [update_deferred_below DEBOUNCE_COUNTER_MAX state true elapsed_ms config hne hlt,
        hpressed] at hflip
      exact absurd hflip (by simp)
    · refine ⟨rfl, ?_⟩
      simpa [get_threshold, hpressed] using hge

/-- Deferred build, from the zero state: while the switch has stayed released,
the counter is at most the total elapsed time of the calls that read `true`. -/
theorem deferred_counter_le_active_time (DEBOUNCE_COUNTER_MAX : Nat)
    (config : zmk_debounce_config) (calls : List (Bool × Int))
    (helapsed : ∀ call ∈ calls, 0 ≤ call.2) (n : Nat) (hn : n ≤ calls.length)
    (hreleased : ∀ k < n,
      (run false DEBOUNCE_COUNTER_MAX config zero_state (calls.take k)).pressed = false) :
    ((run false DEBOUNCE_COUNTER_MAX config zero_state (calls.take n)).counter : Int)
      ≤ active_time (calls.take n) := by
  induction n with
  | zero => simp [run, zero_state, active_time]
  | succ m ih =>
    have hm : m < calls.length := hn
    have ihm := ih (Nat.le_of_lt hm) (fun k hk => hreleased k (Nat.lt_succ_of_lt hk))
    rw [run_take_succ _ _ _ _ _ m hm, active_time_take_succ calls m hm]
    exact deferred_step_counter_le DEBOUNCE_COUNTER_MAX config _ _ _ _
      (hreleased m (Nat.lt_succ_self m)) (helapsed _ (List.get_mem calls m hm)) ihm

/-! ## The counter ceiling -/

/-- A property of the state that every call with a non-negative elapsed time
preserves holds after any sequence of such calls. -/
theorem run_preserves (EAGER : Bool) (DEBOUNCE_COUNTER_MAX : Nat) (config : zmk_debounce_config)
    (good : zmk_debounce_state → Prop)
    (hstep : ∀ (state : zmk_debounce_state) (active : Bool) (elapsed_ms : Int),
      good state → 0 ≤ elapsed_ms →
      good (zmk_debounce_update EAGER DEBOUNCE_COUNTER_MAX state active elapsed_ms config))
    (calls : List (Bool × Int)) (helapsed : ∀ call ∈ calls, 0 ≤ call.2)
    (state : zmk_debounce_state) (hstate : good state) :
    good (run EAGER DEBOUNCE_COUNTER_MAX config state calls) := by
  induction calls generalizing state with
  | nil => exact hstate
  | cons call rest ih =>
    have hrest : ∀ c ∈ rest, 0 ≤ c.2 := fun c hc => helapsed c (List.mem_cons_of_mem _ hc)
    exact ih hrest _ (hstep state call.1 call.2 hstate (helapsed call (List.mem_cons_self _ _)))

/-- Deferred build: one call keeps the counter at or below the ceiling. -/
theorem deferred_step_counter_le_max (DEBOUNCE_COUNTER_MAX : Nat) (config : zmk_debounce_config)
    (state : zmk_debounce_state) (active : Bool) (elapsed_ms : Int)
    (hcounter : state.counter ≤ DEBOUNCE_COUNTER_MAX) (helapsed : 0 ≤ elapsed_ms) :
    (zmk_debounce_update false DEBOUNCE_COUNTER_MAX state active elapsed_ms config).counter
      ≤ DEBOUNCE_COUNTER_MAX := by
  by_cases hraw : active = state.pressed
  · rw [update_agree false DEBOUNCE_COUNTER_MAX state active elapsed_ms config hraw]
    simp only
    omega
  · rcases Nat.lt_or_ge state.counter (get_threshold state config) with hlt | hge
    · rw [update_deferred_below DEBOUNCE_COUNTER_MAX state active elapsed_ms config hraw hlt]
      simp only
      omega
    · rw [update_deferred_reached DEBOUNCE_COUNTER_MAX state active elapsed_ms config hraw hge]
      exact Nat.zero_le _

/-- Eager build: one call keeps the counter at or below the ceiling provided
neither delay is above the ceiling. -/
theorem eager_step_counter_le_max (DEBOUNCE_COUNTER_MAX : Nat) (config : zmk_debounce_config)
    (state : zmk_debounce_state) (active : Bool) (elapsed_ms : Int)
    (hpress : config.debounce_press_ms ≤ DEBOUNCE_COUNTER_MAX)
    (hrelease : config.debounce_release_ms ≤ DEBOUNCE_COUNTER_MAX)
    (hcounter : state.counter ≤ DEBOUNCE_COUNTER_MAX) (helapsed : 0 ≤ elapsed_ms) :
    (zmk_debounce_update true DEBOUNCE_COUNTER_MAX state active elapsed_ms config).counter
      ≤ DEBOUNCE_COUNTER_MAX := by
  by_cases hraw : active = state.pressed
  · rw [update_agree true DEBOUNCE_COUNTER_MAX state active elapsed_ms config hraw]
    simp only
    omega
  · by_cases h0 : state.counter = 0
    · rw [update_eager_reset DEBOUNCE_COUNTER_MAX state active elapsed_ms config hraw h0]
      simp only [get_counter]
      split <;> assumption
    · rcases Nat.lt_or_ge state.counter
        (config.debounce_release_ms + config.debounce_press_ms) with hlt | hge
      · rw [update_eager_below DEBOUNCE_COUNTER_MAX state active elapsed_ms config hraw h0 hlt]
        simp only
        omega
      · rw [update_eager_reached DEBOUNCE_COUNTER_MAX state active elapsed_ms config hraw h0 hge]
        exact Nat.zero_le _

/-! ## Claims about one call -/

/-- C1: Deferred policy, a call whose raw reading disagrees with the debounced
state.  With `threshold` the release delay when pressed and the press delay
otherwise: below the threshold the counter becomes
`min (counter + elapsed_ms) DEBOUNCE_COUNTER_MAX`, `pressed` is kept and
`changed` is false; at or above it the counter becomes 0, `pressed` is negated
and `changed` is true. -/
theorem deferred_disagree_step (DEBOUNCE_COUNTER_MAX : Nat) (config : zmk_debounce_config)
    (state : zmk_debounce_state) (active : Bool) (elapsed_ms : Int)
    (hcounter : state.counter ≤ DEBOUNCE_COUNTER_MAX) (helapsed : 0 ≤ elapsed_ms)
    (hraw : active ≠ state.pressed) :
    (state.counter <
        (if state.pressed then config.debounce_release_ms else config.debounce_press_ms) →
      ((zmk_debounce_update false DEBOUNCE_COUNTER_MAX state active elapsed_ms config).counter : Int)
          = min ((state.counter : Int) + elapsed_ms) (DEBOUNCE_COUNTER_MAX : Int)
        ∧ (zmk_debounce_update false DEBOUNCE_COUNTER_MAX state active elapsed_ms config).pressed
          = state.pressed
        ∧ (zmk_debounce_update false DEBOUNCE_COUNTER_MAX state active elapsed_ms config).changed
          = false)
    ∧ ((if state.pressed then config.debounce_release_ms else config.debounce_press_ms)
        ≤ state.counter →
      (zmk_debounce_update false DEBOUNCE_COUNTER_MAX state active elapsed_ms config).counter = 0
        ∧ (zmk_debounce_update false DEBOUNCE_COUNTER_MAX state active elapsed_ms config).pressed
          = (!state.pressed)
        ∧ (zmk_debounce_update false DEBOUNCE_COUNTER_MAX state active elapsed_ms config).changed
          = true) := by
  have _ := hcounter
  constructor
  · intro hlt
    rw [update_deferred_below DEBOUNCE_COUNTER_MAX state active elapsed_ms config hraw hlt]
    refine ⟨?_, rfl, rfl⟩
    have h0 : 0 ≤ min ((state.counter : Int) + elapsed_ms) (DEBOUNCE_COUNTER_MAX : Int) := by
      omega
    exact Int.toNat_of_nonneg h0
  · intro hge
    rw [update_deferred_reached DEBOUNCE_COUNTER_MAX state active elapsed_ms config hraw hge]
    exact ⟨rfl, rfl, rfl⟩

/-- Witness for C1: with delays 5 and 5 and ceiling 65535, a released switch
with counter 3 reading `true` after 4 ms (below the threshold), and a pressed
switch with counter 7 reading `false` after 4 ms (threshold reached). -/
theorem deferred_disagree_step_witness :
    (((zmk_debounce_update false 65535 ⟨false, false, 3⟩ true 4 ⟨5, 5⟩).counter : Int)
          = min (((3 : Nat) : Int) + 4) ((65535 : Nat) : Int)
        ∧ (zmk_debounce_update false 65535 ⟨false, false, 3⟩ true 4 ⟨5, 5⟩).pressed = false
        ∧ (zmk_debounce_update false 65535 ⟨false, false, 3⟩ true 4 ⟨5, 5⟩).changed = false)
    ∧ ((zmk_debounce_update false 65535 ⟨true, false, 7⟩ false 4 ⟨5, 5⟩).counter = 0
        ∧ (zmk_debounce_update false 65535 ⟨true, false, 7⟩ false 4 ⟨5, 5⟩).pressed = (!true)
        ∧ (zmk_debounce_update false 65535 ⟨true, false, 7⟩ false 4 ⟨5, 5⟩).changed = true) :=
  ⟨(deferred_disagree_step 65535 ⟨5, 5⟩ ⟨false, false, 3⟩ true 4 (by decide) (by decide)
      (by decide)).1 (by decide),
   (deferred_disagree_step 65535 ⟨5, 5⟩ ⟨true, false, 7⟩ false 4 (by decide) (by decide)
      (by decide)).2 (by decide)⟩

/-- C2: a call whose raw reading agrees with the debounced state, in either
build: the counter becomes `max (counter - elapsed_ms) 0`, `pressed` is kept and
`changed` is false.  In particular a pressed switch with counter 0 that reads
`true` after 10 ms keeps counter 0, stays pressed and reports no change. -/
theorem agree_step (CONFIG_ZMK_DEBOUNCE_EAGER : Bool) (DEBOUNCE_COUNTER_MAX : Nat)
    (config : zmk_debounce_config) (state : zmk_debounce_state) (active : Bool)
    (elapsed_ms : Int) (helapsed : 0 ≤ elapsed_ms) (hraw : active = state.pressed) :
    (((zmk_debounce_update CONFIG_ZMK_DEBOUNCE_EAGER DEBOUNCE_COUNTER_MAX state active elapsed_ms
          config).counter : Int) = max ((state.counter : Int) - elapsed_ms) 0
      ∧ (zmk_debounce_update CONFIG_ZMK_DEBOUNCE_EAGER DEBOUNCE_COUNTER_MAX state active elapsed_ms
          config).pressed = state.pressed
      ∧ (zmk_debounce_update CONFIG_ZMK_DEBOUNCE_EAGER DEBOUNCE_COUNTER_MAX state active elapsed_ms
          config).changed = false)
    ∧ zmk_debounce_update CONFIG_ZMK_DEBOUNCE_EAGER DEBOUNCE_COUNTER_MAX
          { pressed := true, changed := state.changed, counter := 0 } true 10 config
        = { pressed := true, changed := false, counter := 0 } := by
  have _ := helapsed
  constructor
  · rw [update_agree CONFIG_ZMK_DEBOUNCE_EAGER DEBOUNCE_COUNTER_MAX state active elapsed_ms config
      hraw]
    refine ⟨?_, rfl, rfl⟩
    exact Int.toNat_of_nonneg (le_max_right _ _)
  · rw [update_agree CONFIG_ZMK_DEBOUNCE_EAGER DEBOUNCE_COUNTER_MAX _ true 10 config rfl]
    rfl

/-- Witness for C2: Eager build, a pressed switch with counter 7 reading `true`
after 3 ms. -/
theorem agree_step_witness :
    (0 : Int) ≤ 3 ∧ true = true ∧
    ((((zmk_debounce_update true 65535 ⟨true, true, 7⟩ true 3 ⟨5, 5⟩).counter : Int)
        = max (((7 : Nat) : Int) - 3) 0
      ∧ (zmk_debounce_update true 65535 ⟨true, true, 7⟩ true 3 ⟨5, 5⟩).pressed = true
      ∧ (zmk_debounce_update true 65535 ⟨true, true, 7⟩ true 3 ⟨5, 5⟩).changed = false)
    ∧ zmk_debounce_update true 65535 { pressed := true, changed := true, counter := 0 } true 10
          ⟨5, 5⟩
        = { pressed := true, changed := false, counter := 0 }) :=
  ⟨by decide, rfl, agree_step true 65535 ⟨5, 5⟩ ⟨true, true, 7⟩ true 3 (by decide) rfl⟩

/-! ## Deferred flip timing -/

/-- C3, as stated, fails on the scenario the specification gives for it: with
delays 5 and 5, the third of three calls `update(true, 2)` is the first call at
which the cumulative elapsed time (6) reaches the press delay, yet after it the
switch is still released, `changed` is false and the counter is 6, not 0. -/
theorem deferred_flip_timing_counterexample :
    ((([2, 2, 2] : List Int).take 2).sum < ((5 : Nat) : Int)
      ∧ ((5 : Nat) : Int) ≤ (([2, 2, 2] : List Int).take 3).sum)
    ∧ run false 65535 ⟨5, 5⟩ zero_state (constant_reading true [2, 2]) =
        { pressed := false, changed := false, counter := 4 }
    ∧ run false 65535 ⟨5, 5⟩ zero_state (constant_reading true [2, 2, 2]) =
        { pressed := false, changed := false, counter := 6 }
    ∧ ¬ ((run false 65535 ⟨5, 5⟩ zero_state (constant_reading true [2, 2, 2])).pressed = true
        ∧ (run false 65535 ⟨5, 5⟩ zero_state (constant_reading true [2, 2, 2])).changed = true
        ∧ (run false 65535 ⟨5, 5⟩ zero_state (constant_reading true [2, 2, 2])).counter = 0) := by
  decide

/-- C3, amended: Deferred build, from the zero state with every reading `true`
and elapsed times `elapsed` (each non-negative).  The threshold test of a call
sees the counter left by the earlier calls, `min (e1 + ... + en) MAX` for call
`n + 1`, and not the elapsed time of the call itself.  While that value is
below the press delay, call `n + 1` leaves the switch released with `changed`
false and the counter at `min (e1 + ... + e(n+1)) MAX`; the first call for
which that value has reached the press delay makes `pressed` true, `changed`
true and the counter 0. -/
theorem deferred_flip_timing (DEBOUNCE_COUNTER_MAX : Nat) (config : zmk_debounce_config)
    (elapsed : List Int) (n : Nat) (helapsed : ∀ e ∈ elapsed, 0 ≤ e)
    (hn : n < elapsed.length) :
    (min (elapsed.take n).sum (DEBOUNCE_COUNTER_MAX : Int) < (config.debounce_press_ms : Int) →
      run false DEBOUNCE_COUNTER_MAX config zero_state
          (constant_reading true (elapsed.take (n + 1))) =
        { pressed := false, changed := false,
          counter := (min (elapsed.take (n + 1)).sum (DEBOUNCE_COUNTER_MAX : Int)).toNat })
    ∧ ((∀ k < n, min (elapsed.take k).sum (DEBOUNCE_COUNTER_MAX : Int)
          < (config.debounce_press_ms : Int)) →
      (config.debounce_press_ms : Int) ≤ min (elapsed.take n).sum (DEBOUNCE_COUNTER_MAX : Int) →
      run false DEBOUNCE_COUNTER_MAX config zero_state
          (constant_reading true (elapsed.take (n + 1))) =
        { pressed := true, changed := true, counter := 0 }) := by
  constructor
  · intro hlt
    apply deferred_hold_below DEBOUNCE_COUNTER_MAX config elapsed helapsed (n + 1) hn
    intro k hk
    have hmono := sum_take_mono elapsed helapsed k n (Nat.lt_succ_iff.mp hk)
    omega
  · intro hfirst hreach
    have hn2 : n < (constant_reading true elapsed).length := by
      simpa [constant_reading] using hn
    have hprev := deferred_hold_below DEBOUNCE_COUNTER_MAX config elapsed helapsed n
      (Nat.le_of_lt hn) hfirst
    have hs := sum_take_nonneg elapsed helapsed n
    rw [constant_reading_take, run_take_succ _ _ _ _ _ n hn2, ← constant_reading_take, hprev,
      constant_reading_get true elapsed n hn2 hn]
    rw [update_deferred_reached]
    · rfl
    · simp
    · simp only [get_threshold, Bool.false_eq_true, if_false]
      omega

/-- Witness for C3 amended: delays 5 and 5, four calls `update(true, 2)`.  The
third call (counter 4 before it) leaves counter 6 and the switch released; the
fourth call (counter 6 before it) is the first to flip. -/
theorem deferred_flip_timing_witness :
    run false 65535 ⟨5, 5⟩ zero_state (constant_reading true (([2, 2, 2, 2] : List Int).take 3)) =
        { pressed := false, changed := false,
          counter := (min (([2, 2, 2, 2] : List Int).take 3).sum ((65535 : Nat) : Int)).toNat }
    ∧ run false 65535 ⟨5, 5⟩ zero_state (constant_reading true (([2, 2, 2, 2] : List Int).take 4)) =
        { pressed := true, changed := true, counter := 0 } :=
  ⟨(deferred_flip_timing 65535 ⟨5, 5⟩ [2, 2, 2, 2] 2 (by decide) (by decide)).1 (by decide),
   (deferred_flip_timing 65535 ⟨5, 5⟩ [2, 2, 2, 2] 3 (by decide) (by decide)).2 (by decide)
     (by decide)⟩

/-! ## Deferred build never confirms a press early -/

/-- C4: Deferred build, from the zero state, any readings and non-negative
elapsed times.  If call `n + 1` is the first call after which `pressed` is
true, then the elapsed times of the calls before it whose reading was `true`
add up to at least the press delay. -/
theorem deferred_no_early_press (DEBOUNCE_COUNTER_MAX : Nat) (config : zmk_debounce_config)
    (calls : List (Bool × Int)) (n : Nat) (helapsed : ∀ call ∈ calls, 0 ≤ call.2)
    (hn : n < calls.length)
    (hreleased : ∀ k ≤ n,
      (run false DEBOUNCE_COUNTER_MAX config zero_state (calls.take k)).pressed = false)
    (hpressed :
      (run false DEBOUNCE_COUNTER_MAX config zero_state (calls.take (n + 1))).pressed = true) :
    (config.debounce_press_ms : Int) ≤ active_time (calls.take n) := by
  have hle := deferred_counter_le_active_time DEBOUNCE_COUNTER_MAX config calls helapsed n
    (Nat.le_of_lt hn) (fun k hk => hreleased k (Nat.le_of_lt hk))
  rw [run_take_succ _ _ _ _ _ n hn] at hpressed
  have hstep := deferred_step_press DEBOUNCE_COUNTER_MAX config _ _ _ (hreleased n (le_refl n))
    hpressed
  have h2 : (config.debounce_press_ms : Int) ≤
      ((run false DEBOUNCE_COUNTER_MAX config zero_state (calls.take n)).counter : Int) := by
    exact_mod_cast hstep.2
  omega

/-- Witness for C4: delays 5 and 5; readings true 3 ms, false 1 ms, true 4 ms,
true 9 ms.  The counter goes 3, 2, 6 and the fourth call is the first to leave
the switch pressed; the `true` calls before it total 7 ms. -/
theorem deferred_no_early_press_witness :
    (run false 65535 ⟨5, 5⟩ zero_state
        (([(true, 3), (false, 1), (true, 4), (true, 9)] : List (Bool × Int)).take 4)).pressed
      = true
    ∧ active_time (([(true, 3), (false, 1), (true, 4), (true, 9)] : List (Bool × Int)).take 3) = 7
    ∧ (((5 : Nat) : Int) ≤
      active_time (([(true, 3), (false, 1), (true, 4), (true, 9)] : List (Bool × Int)).take 3)) :=
  ⟨by decide, by decide,
    deferred_no_early_press 65535 ⟨5, 5⟩ [(true, 3), (false, 1), (true, 4), (true, 9)] 3
      (by decide) (by decide) (by decide) (by decide)⟩

/-! ## Eager build with its integer widths: the three disagreeing cases -/

/-- Eager build, disagreeing call with the counter reset: the state flips at once
and the counter is loaded with `get_counter` reduced to the counter field. -/
theorem eager_widths_reset (COUNTER_BITS : Nat) (DEBOUNCE_COUNTER_MAX : Nat)
    (state : zmk_debounce_state) (active : Bool) (elapsed_ms : Int)
    (config : zmk_debounce_config) (h : active ≠ state.pressed) (h0 : state.counter = 0) :
    zmk_debounce_update_eager_widths COUNTER_BITS DEBOUNCE_COUNTER_MAX state active elapsed_ms
        config =
      { pressed := !state.pressed, changed := true,
        counter := get_counter state config % 2 ^ COUNTER_BITS } := by
  have hne : (active == state.pressed) = false := by simpa using h
  simp [zmk_debounce_update_eager_widths, hne, h0, get_counter]

/-- Eager build, disagreeing call with a running counter below the 32-bit
combined delay: the counter is incremented. -/
theorem eager_widths_below (COUNTER_BITS : Nat) (DEBOUNCE_COUNTER_MAX : Nat)
    (state : zmk_debounce_state) (active : Bool) (elapsed_ms : Int)
    (config : zmk_debounce_config) (h : active ≠ state.pressed) (h0 : state.counter ≠ 0)
    (hlt : state.counter <
      (config.debounce_release_ms + config.debounce_press_ms) % 4294967296) :
    zmk_debounce_update_eager_widths COUNTER_BITS DEBOUNCE_COUNTER_MAX state active elapsed_ms
        config =
      { pressed := state.pressed, changed := false,
        counter := (min ((state.counter : Int) + elapsed_ms) DEBOUNCE_COUNTER_MAX).toNat } := by
  have hne : (active == state.pressed) = false := by simpa using h
  simp [zmk_debounce_update_eager_widths, hne, h0, hlt, increment_counter_eq]

/-- Eager build, disagreeing call with a running counter at or above the 32-bit
combined delay: the state flips and the counter is reset. -/
theorem eager_widths_reached (COUNTER_BITS : Nat) (DEBOUNCE_COUNTER_MAX : Nat)
    (state : zmk_debounce_state) (active : Bool) (elapsed_ms : Int)
    (config : zmk_debounce_config) (h : active ≠ state.pressed) (h0 : state.counter ≠ 0)
    (hge : (config.debounce_release_ms + config.debounce_press_ms) % 4294967296
      ≤ state.counter) :
    zmk_debounce_update_eager_widths COUNTER_BITS DEBOUNCE_COUNTER_MAX state active elapsed_ms
        config =
      { pressed := !state.pressed, changed := true, counter := 0 } := by
  have hne : (active == state.pressed) = false := by simpa using h
  simp [zmk_debounce_update_eager_widths, hne, h0, Nat.not_lt.mpr hge]

/-- Where the sum of the two delays fits 32 bits and the value of `get_counter`
fits the counter field, the Eager build with its widths is the Eager branch of
`zmk_debounce_update`. -/
theorem eager_widths_eq_exact (COUNTER_BITS : Nat) (DEBOUNCE_COUNTER_MAX : Nat)
    (state : zmk_debounce_state) (active : Bool) (elapsed_ms : Int)
    (config : zmk_debounce_config)
    (hsum : config.debounce_release_ms + config.debounce_press_ms < 4294967296)
    (hload : get_counter state config < 2 ^ COUNTER_BITS) :
    zmk_debounce_update_eager_widths COUNTER_BITS DEBOUNCE_COUNTER_MAX state active elapsed_ms
        config =
      zmk_debounce_update true DEBOUNCE_COUNTER_MAX state active elapsed_ms config := by
  have hthr : (config.debounce_release_ms + config.debounce_press_ms) % 4294967296
      = config.debounce_release_ms + config.debounce_press_ms := Nat.mod_eq_of_lt hsum
  by_cases hraw : active = state.pressed
  · subst hraw
    simp [zmk_debounce_update_eager_widths, zmk_debounce_update]
  · by_cases h0 : state.counter = 0
    · rw [eager_widths_reset COUNTER_BITS DEBOUNCE_COUNTER_MAX state active elapsed_ms config
        hraw h0,
        update_eager_reset DEBOUNCE_COUNTER_MAX state active elapsed_ms config hraw h0,
        Nat.mod_eq_of_lt hload]
    · rcases Nat.lt_or_ge state.counter
        (config.debounce_release_ms + config.debounce_press_ms) with hlt | hge
      · rw [eager_widths_below COUNTER_BITS DEBOUNCE_COUNTER_MAX state active elapsed_ms config
          hraw h0 (by rw [hthr]; exact hlt),
          update_eager_below DEBOUNCE_COUNTER_MAX state active elapsed_ms config hraw h0 hlt]
      · rw [eager_widths_reached COUNTER_BITS DEBOUNCE_COUNTER_MAX state active elapsed_ms
          config hraw h0 (by rw [hthr]; exact hge),
          update_eager_reached DEBOUNCE_COUNTER_MAX state active elapsed_ms config hraw h0 hge]

/-! ## Eager build: one disagreeing call -/

/-- C5, as stated, fails: Eager build, delays 5 and 5, a released switch with
counter 0 reading `true` after 2 ms.  The loaded value 5 is below the combined
delay 10, so the claim predicts counter 7 with `pressed` and `changed` false;
the call leaves the switch pressed, `changed` true and the counter at 5. -/
theorem eager_reset_step_counterexample :
    (5 : Nat) < 5 + 5
    ∧ zmk_debounce_update_eager_widths 16 65535 ⟨false, false, 0⟩ true 2 ⟨5, 5⟩ =
        { pressed := true, changed := true, counter := 5 }
    ∧ ¬ (((zmk_debounce_update_eager_widths 16 65535 ⟨false, false, 0⟩ true 2 ⟨5, 5⟩).counter
            : Int) = min (((5 : Nat) : Int) + 2) ((65535 : Nat) : Int)
        ∧ (zmk_debounce_update_eager_widths 16 65535 ⟨false, false, 0⟩ true 2 ⟨5, 5⟩).pressed
            = false
        ∧ (zmk_debounce_update_eager_widths 16 65535 ⟨false, false, 0⟩ true 2 ⟨5, 5⟩).changed
            = false) := by
  decide

/-- C5, amended: Eager build, a counter field that holds the ceiling, and a
disagreeing call with counter 0.  Let `d` be the release delay when not pressed
and the press delay otherwise, and let `d` be at most the ceiling.  The call
loads the counter with `d`, negates `pressed` and sets `changed`, whether `d` is
below the combined delay `press + release` or not: `d` is not tested against
the combined delay and `elapsed_ms` is not added. -/
theorem eager_reset_step (COUNTER_BITS : Nat) (DEBOUNCE_COUNTER_MAX : Nat)
    (config : zmk_debounce_config) (state : zmk_debounce_state) (active : Bool)
    (elapsed_ms : Int) (hfield : DEBOUNCE_COUNTER_MAX < 2 ^ COUNTER_BITS)
    (hdelay : (if !state.pressed then config.debounce_release_ms
      else config.debounce_press_ms) ≤ DEBOUNCE_COUNTER_MAX)
    (hcounter : state.counter = 0) (helapsed : 0 ≤ elapsed_ms) (hraw : active ≠ state.pressed) :
    ((if !state.pressed then config.debounce_release_ms else config.debounce_press_ms)
        < config.debounce_press_ms + config.debounce_release_ms →
      zmk_debounce_update_eager_widths COUNTER_BITS DEBOUNCE_COUNTER_MAX state active elapsed_ms
          config =
        { pressed := !state.pressed, changed := true,
          counter :=
            if !state.pressed then config.debounce_release_ms else config.debounce_press_ms })
    ∧ (config.debounce_press_ms + config.debounce_release_ms
        ≤ (if !state.pressed then config.debounce_release_ms else config.debounce_press_ms) →
      zmk_debounce_update_eager_widths COUNTER_BITS DEBOUNCE_COUNTER_MAX state active elapsed_ms
          config =
        { pressed := !state.pressed, changed := true,
          counter :=
            if !state.pressed then config.debounce_release_ms else config.debounce_press_ms }) := by
  have _ := helapsed
  have hfits : get_counter state config % 2 ^ COUNTER_BITS = get_counter state config :=
    Nat.mod_eq_of_lt (Nat.lt_of_le_of_lt hdelay hfield)
  have h := eager_widths_reset COUNTER_BITS DEBOUNCE_COUNTER_MAX state active elapsed_ms config
    hraw hcounter
  rw [hfits] at h
  exact ⟨fun _ => h, fun _ => h⟩

/-- Witness for C5 amended: a 16-bit counter field with ceiling 65535; delays 5
and 5 (loaded value below the combined delay), and press delay 0 with release
delay 5 (loaded value equal to it). -/
theorem eager_reset_step_witness :
    zmk_debounce_update_eager_widths 16 65535 ⟨false, false, 0⟩ true 2 ⟨5, 5⟩ =
        { pressed := !false, changed := true, counter := if !false then 5 else 5 }
    ∧ zmk_debounce_update_eager_widths 16 65535 ⟨false, false, 0⟩ true 2 ⟨0, 5⟩ =
        { pressed := !false, changed := true, counter := if !false then 5 else 0 } :=
  ⟨(eager_reset_step 16 65535 ⟨5, 5⟩ ⟨false, false, 0⟩ true 2 (by decide) (by decide) rfl
      (by decide) (by decide)).1 (by decide),
   (eager_reset_step 16 65535 ⟨0, 5⟩ ⟨false, false, 0⟩ true 2 (by decide) (by decide) rfl
      (by decide) (by decide)).2 (by decide)⟩

/-- C6, as stated for every config, fails: Eager build with a 16-bit counter
field and ceiling 65535, press delay 5 and release delay 70000.  From the zero
state the call `update(true, 1)` flips the switch, but the counter holds 4464,
the release delay reduced to the field, not the release delay 70000.  For a
field of any width the release delay `2^COUNTER_BITS` is loaded as 0. -/
theorem eager_reset_flips_counterexample :
    get_counter zero_state ⟨5, 70000⟩ = 70000
    ∧ zmk_debounce_update_eager_widths 16 65535 zero_state true 1 ⟨5, 70000⟩ =
        { pressed := true, changed := true, counter := 4464 }
    ∧ ¬ (zmk_debounce_update_eager_widths 16 65535 zero_state true 1 ⟨5, 70000⟩).counter = 70000
    ∧ ∀ COUNTER_BITS : Nat,
        (zmk_debounce_update_eager_widths COUNTER_BITS 65535 zero_state true 1
          ⟨5, 2 ^ COUNTER_BITS⟩).counter = 0
        ∧ 0 < 2 ^ COUNTER_BITS := by
  refine ⟨by decide, by decide, by decide, ?_⟩
  intro COUNTER_BITS
  rw [eager_widths_reset COUNTER_BITS 65535 zero_state true 1 ⟨5, 2 ^ COUNTER_BITS⟩ (by decide)
    rfl]
  exact ⟨by simp [get_counter, zero_state], Nat.two_pow_pos COUNTER_BITS⟩

/-- C6, amended: Eager build, a counter field that holds the ceiling, and a
disagreeing call with counter 0, as the comment in `zmk_debounce_update`
describes it.  For every config `pressed` flips on that call, `changed` is true
and the result is the same for every other non-negative elapsed time; the
counter is the release delay if the switch was not pressed and the press delay
if it was, whenever that delay is at most the ceiling. -/
theorem eager_reset_flips (COUNTER_BITS : Nat) (DEBOUNCE_COUNTER_MAX : Nat)
    (config : zmk_debounce_config) (state : zmk_debounce_state) (active : Bool)
    (elapsed_ms : Int) (hfield : DEBOUNCE_COUNTER_MAX < 2 ^ COUNTER_BITS)
    (hcounter : state.counter = 0) (helapsed : 0 ≤ elapsed_ms) (hraw : active ≠ state.pressed) :
    (zmk_debounce_update_eager_widths COUNTER_BITS DEBOUNCE_COUNTER_MAX state active elapsed_ms
        config).pressed = (!state.pressed)
    ∧ (zmk_debounce_update_eager_widths COUNTER_BITS DEBOUNCE_COUNTER_MAX state active elapsed_ms
        config).changed = true
    ∧ (state.pressed = false → config.debounce_release_ms ≤ DEBOUNCE_COUNTER_MAX →
        (zmk_debounce_update_eager_widths COUNTER_BITS DEBOUNCE_COUNTER_MAX state active
          elapsed_ms config).counter = config.debounce_release_ms)
    ∧ (state.pressed = true → config.debounce_press_ms ≤ DEBOUNCE_COUNTER_MAX →
        (zmk_debounce_update_eager_widths COUNTER_BITS DEBOUNCE_COUNTER_MAX state active
          elapsed_ms config).counter = config.debounce_press_ms)
    ∧ ∀ other_ms : Int, 0 ≤ other_ms →
        zmk_debounce_update_eager_widths COUNTER_BITS DEBOUNCE_COUNTER_MAX state active other_ms
            config =
          zmk_debounce_update_eager_widths COUNTER_BITS DEBOUNCE_COUNTER_MAX state active
            elapsed_ms config := by
  have _ := helapsed
  rw [eager_widths_reset COUNTER_BITS DEBOUNCE_COUNTER_MAX state active elapsed_ms config hraw
    hcounter]
  refine ⟨rfl, rfl, ?_, ?_, ?_⟩
  · intro hp hle
    simp only [get_counter, hp, Bool.not_false, if_true]
    exact Nat.mod_eq_of_lt (Nat.lt_of_le_of_lt hle hfield)
  · intro hp hle
    simp only [get_counter, hp, Bool.not_true, Bool.false_eq_true, if_false]
    exact Nat.mod_eq_of_lt (Nat.lt_of_le_of_lt hle hfield)
  · intro other_ms _
    exact eager_widths_reset COUNTER_BITS DEBOUNCE_COUNTER_MAX state active other_ms config hraw
      hcounter

/-- Witness for C6 amended: a 16-bit counter field with ceiling 65535, delays
press 7 and release 3; a released switch with counter 0 reading `true` after
4 ms is pressed with counter 3, and a pressed switch with counter 0 reading
`false` after 4 ms is released with counter 7. -/
theorem eager_reset_flips_witness :
    ((zmk_debounce_update_eager_widths 16 65535 ⟨false, false, 0⟩ true 4 ⟨7, 3⟩).pressed
        = (!false)
      ∧ (zmk_debounce_update_eager_widths 16 65535 ⟨false, false, 0⟩ true 4 ⟨7, 3⟩).changed = true
      ∧ (zmk_debounce_update_eager_widths 16 65535 ⟨false, false, 0⟩ true 4 ⟨7, 3⟩).counter = 3)
    ∧ ((zmk_debounce_update_eager_widths 16 65535 ⟨true, false, 0⟩ false 4 ⟨7, 3⟩).pressed
        = (!true)
      ∧ (zmk_debounce_update_eager_widths 16 65535 ⟨true, false, 0⟩ false 4 ⟨7, 3⟩).changed = true
      ∧ (zmk_debounce_update_eager_widths 16 65535 ⟨true, false, 0⟩ false 4 ⟨7, 3⟩).counter = 7) :=
  have h1 := eager_reset_flips 16 65535 ⟨7, 3⟩ ⟨false, false, 0⟩ true 4 (by decide) rfl
    (by decide) (by decide)
  have h2 := eager_reset_flips 16 65535 ⟨7, 3⟩ ⟨true, false, 0⟩ false 4 (by decide) rfl
    (by decide) (by decide)
  ⟨⟨h1.1, h1.2.1, h1.2.2.1 rfl (by decide)⟩, ⟨h2.1, h2.2.1, h2.2.2.2.1 rfl (by decide)⟩⟩

/-- C7, as stated for every config, fails: Eager build, press delay 4294967295
and release delay 1, a released switch with counter 1 reading `true` after
2 ms.  The counter is below `press + release = 4294967296`, so the claim
predicts counter 3 with `pressed` and `changed` false; the 32-bit
`flip_threshold` is 0, and the call flips the switch and resets the counter. -/
theorem eager_running_step_counterexample :
    ((0 : Nat) < 1 ∧ (1 : Nat) ≤ 65535 ∧ (1 : Nat) < 4294967295 + 1)
    ∧ (1 + 4294967295) % 4294967296 = 0
    ∧ zmk_debounce_update_eager_widths 16 65535 ⟨false, false, 1⟩ true 2 ⟨4294967295, 1⟩ =
        { pressed := true, changed := true, counter := 0 }
    ∧ ¬ (((zmk_debounce_update_eager_widths 16 65535 ⟨false, false, 1⟩ true 2
            ⟨4294967295, 1⟩).counter : Int) = min (((1 : Nat) : Int) + 2) ((65535 : Nat) : Int)
        ∧ (zmk_debounce_update_eager_widths 16 65535 ⟨false, false, 1⟩ true 2
            ⟨4294967295, 1⟩).pressed = false
        ∧ (zmk_debounce_update_eager_widths 16 65535 ⟨false, false, 1⟩ true 2
            ⟨4294967295, 1⟩).changed = false) := by
  decide

/-- C7, amended: Eager build with `press + release` below `2^32`, a disagreeing
call with a running counter (`0 < counter ≤ DEBOUNCE_COUNTER_MAX`): below the
combined delay `press + release` the counter becomes
`min (counter + elapsed_ms) DEBOUNCE_COUNTER_MAX`, `pressed` is kept and
`changed` is false; at or above it the counter becomes 0, `pressed` is negated
and `changed` is true. -/
theorem eager_running_step (COUNTER_BITS : Nat) (DEBOUNCE_COUNTER_MAX : Nat)
    (config : zmk_debounce_config) (state : zmk_debounce_state) (active : Bool)
    (elapsed_ms : Int)
    (hsum : config.debounce_press_ms + config.debounce_release_ms < 4294967296)
    (hpos : 0 < state.counter) (hcounter : state.counter ≤ DEBOUNCE_COUNTER_MAX)
    (helapsed : 0 ≤ elapsed_ms) (hraw : active ≠ state.pressed) :
    (state.counter < config.debounce_press_ms + config.debounce_release_ms →
      ((zmk_debounce_update_eager_widths COUNTER_BITS DEBOUNCE_COUNTER_MAX state active
            elapsed_ms config).counter : Int)
          = min ((state.counter : Int) + elapsed_ms) (DEBOUNCE_COUNTER_MAX : Int)
        ∧ (zmk_debounce_update_eager_widths COUNTER_BITS DEBOUNCE_COUNTER_MAX state active
            elapsed_ms config).pressed = state.pressed
        ∧ (zmk_debounce_update_eager_widths COUNTER_BITS DEBOUNCE_COUNTER_MAX state active
            elapsed_ms config).changed = false)
    ∧ (config.debounce_press_ms + config.debounce_release_ms ≤ state.counter →
      (zmk_debounce_update_eager_widths COUNTER_BITS DEBOUNCE_COUNTER_MAX state active
            elapsed_ms config).counter = 0
        ∧ (zmk_debounce_update_eager_widths COUNTER_BITS DEBOUNCE_COUNTER_MAX state active
            elapsed_ms config).pressed = (!state.pressed)
        ∧ (zmk_debounce_update_eager_widths COUNTER_BITS DEBOUNCE_COUNTER_MAX state active
            elapsed_ms config).changed = true) := by
  have _ := hcounter
  have h0 : state.counter ≠ 0 := Nat.pos_iff_ne_zero.mp hpos
  have hthr : (config.debounce_release_ms + config.debounce_press_ms) % 4294967296
      = config.debounce_release_ms + config.debounce_press_ms :=
    Nat.mod_eq_of_lt (by omega)
  constructor
  · intro hlt
    rw [eager_widths_below COUNTER_BITS DEBOUNCE_COUNTER_MAX state active elapsed_ms config hraw
      h0 (by rw [hthr]; omega)]
    refine ⟨?_, rfl, rfl⟩
    have hmin : 0 ≤ min ((state.counter : Int) + elapsed_ms) (DEBOUNCE_COUNTER_MAX : Int) := by
      omega
    exact Int.toNat_of_nonneg hmin
  · intro hge
    rw [eager_widths_reached COUNTER_BITS DEBOUNCE_COUNTER_MAX state active elapsed_ms config
      hraw h0 (by rw [hthr]; omega)]
    exact ⟨rfl, rfl, rfl⟩

/-- Witness for C7 amended: a 16-bit counter field with ceiling 65535, delays 5
and 5; a pressed switch with counter 5 reading `false` after 2 ms (below the
combined delay 10), and the same switch with counter 11 (combined delay
reached). -/
theorem eager_running_step_witness :
    (((zmk_debounce_update_eager_widths 16 65535 ⟨true, false, 5⟩ false 2 ⟨5, 5⟩).counter : Int)
          = min (((5 : Nat) : Int) + 2) ((65535 : Nat) : Int)
        ∧ (zmk_debounce_update_eager_widths 16 65535 ⟨true, false, 5⟩ false 2 ⟨5, 5⟩).pressed
          = true
        ∧ (zmk_debounce_update_eager_widths 16 65535 ⟨true, false, 5⟩ false 2 ⟨5, 5⟩).changed
          = false)
    ∧ ((zmk_debounce_update_eager_widths 16 65535 ⟨true, false, 11⟩ false 2 ⟨5, 5⟩).counter = 0
        ∧ (zmk_debounce_update_eager_widths 16 65535 ⟨true, false, 11⟩ false 2 ⟨5, 5⟩).pressed
          = (!true)
        ∧ (zmk_debounce_update_eager_widths 16 65535 ⟨true, false, 11⟩ false 2 ⟨5, 5⟩).changed
          = true) :=
  ⟨(eager_running_step 16 65535 ⟨5, 5⟩ ⟨true, false, 5⟩ false 2 (by decide) (by decide)
      (by decide) (by decide) (by decide)).1 (by decide),
   (eager_running_step 16 65535 ⟨5, 5⟩ ⟨true, false, 11⟩ false 2 (by decide) (by decide)
      (by decide) (by decide) (by decide)).2 (by decide)⟩

/-! ## Eager flip timing -/

/-- C8, as stated, fails: Eager build, press delay 5 and release delay 3.  The
first call `update(true, 1)` from the zero state already leaves the switch
pressed with `changed` true, although the release delay is positive and the
loaded counter 3 is below the combined delay 8. -/
theorem eager_flip_timing_counterexample :
    (0 : Nat) < 3 ∧ (3 : Nat) < 5 + 3
    ∧ zmk_debounce_update_eager_widths 16 65535 zero_state true 1 ⟨5, 3⟩ =
        { pressed := true, changed := true, counter := 3 }
    ∧ ¬ (zmk_debounce_update_eager_widths 16 65535 zero_state true 1 ⟨5, 3⟩).pressed = false := by
  decide

/-- C8, amended: Eager build, a counter field that holds the ceiling, from the
zero state.  The first call with reading `true` makes `pressed` true on that
call with `changed` true, whether the release delay is 0 or positive and
whatever the elapsed time: with release delay 0 it leaves pressed, changed,
counter 0; with a positive release delay it leaves pressed and changed, and the
counter is the release delay whenever that delay is at most the ceiling. -/
theorem eager_flip_timing (COUNTER_BITS : Nat) (DEBOUNCE_COUNTER_MAX : Nat)
    (config : zmk_debounce_config) (elapsed_ms : Int)
    (hfield : DEBOUNCE_COUNTER_MAX < 2 ^ COUNTER_BITS) (helapsed : 0 ≤ elapsed_ms) :
    (config.debounce_release_ms = 0 →
      zmk_debounce_update_eager_widths COUNTER_BITS DEBOUNCE_COUNTER_MAX zero_state true
          elapsed_ms config =
        { pressed := true, changed := true, counter := config.debounce_release_ms })
    ∧ (0 < config.debounce_release_ms →
      (zmk_debounce_update_eager_widths COUNTER_BITS DEBOUNCE_COUNTER_MAX zero_state true
          elapsed_ms config).pressed = true
      ∧ (zmk_debounce_update_eager_widths COUNTER_BITS DEBOUNCE_COUNTER_MAX zero_state true
          elapsed_ms config).changed = true
      ∧ (config.debounce_release_ms ≤ DEBOUNCE_COUNTER_MAX →
        zmk_debounce_update_eager_widths COUNTER_BITS DEBOUNCE_COUNTER_MAX zero_state true
            elapsed_ms config =
          { pressed := true, changed := true, counter := config.debounce_release_ms })) := by
  have _ := helapsed
  have h : zmk_debounce_update_eager_widths COUNTER_BITS DEBOUNCE_COUNTER_MAX zero_state true
      elapsed_ms config =
      { pressed := true, changed := true,
        counter := config.debounce_release_ms % 2 ^ COUNTER_BITS } := by
    rw [eager_widths_reset COUNTER_BITS DEBOUNCE_COUNTER_MAX zero_state true elapsed_ms config
      (by decide) rfl]
    rfl
  have hfits : config.debounce_release_ms ≤ DEBOUNCE_COUNTER_MAX →
      config.debounce_release_ms % 2 ^ COUNTER_BITS = config.debounce_release_ms :=
    fun hle => Nat.mod_eq_of_lt (Nat.lt_of_le_of_lt hle hfield)
  refine ⟨fun hzero => ?_, fun _ => ⟨by rw [h], by rw [h], fun hle => ?_⟩⟩
  · rw [h, hfits (by omega)]
  · rw [h, hfits hle]

/-- Witness for C8 amended: a 16-bit counter field with ceiling 65535; release
delay 0 (press delay 5), and release delay 3 (press delay 5), each with a first
call `update(true, 1)`. -/
theorem eager_flip_timing_witness :
    zmk_debounce_update_eager_widths 16 65535 zero_state true 1 ⟨5, 0⟩ =
        { pressed := true, changed := true, counter := 0 }
    ∧ zmk_debounce_update_eager_widths 16 65535 zero_state true 1 ⟨5, 3⟩ =
        { pressed := true, changed := true, counter := 3 } :=
  ⟨(eager_flip_timing 16 65535 ⟨5, 0⟩ 1 (by decide) (by decide)).1 rfl,
   ((eager_flip_timing 16 65535 ⟨5, 3⟩ 1 (by decide) (by decide)).2 (by decide)).2.2
     (by decide)⟩

/-! ## Saturation -/

/-- C9: Deferred build, delays of any size.  A call with a non-negative elapsed
time takes a state whose counter is in `[0, DEBOUNCE_COUNTER_MAX]` to a state
whose counter is in `[0, DEBOUNCE_COUNTER_MAX]`; hence the counter is in that
range after every finite sequence of such calls from the zero state. -/
theorem deferred_counter_bounded (DEBOUNCE_COUNTER_MAX : Nat) (config : zmk_debounce_config) :
    (∀ (state : zmk_debounce_state) (active : Bool) (elapsed_ms : Int),
      0 ≤ (state.counter : Int) → state.counter ≤ DEBOUNCE_COUNTER_MAX → 0 ≤ elapsed_ms →
      0 ≤ ((zmk_debounce_update false DEBOUNCE_COUNTER_MAX state active elapsed_ms
          config).counter : Int)
      ∧ (zmk_debounce_update false DEBOUNCE_COUNTER_MAX state active elapsed_ms config).counter
          ≤ DEBOUNCE_COUNTER_MAX)
    ∧ (∀ calls : List (Bool × Int), (∀ call ∈ calls, 0 ≤ call.2) →
      0 ≤ ((run false DEBOUNCE_COUNTER_MAX config zero_state calls).counter : Int)
      ∧ (run false DEBOUNCE_COUNTER_MAX config zero_state calls).counter
          ≤ DEBOUNCE_COUNTER_MAX) := by
  constructor
  · intro state active elapsed_ms _ hcounter helapsed
    exact ⟨Int.ofNat_nonneg _,
      deferred_step_counter_le_max DEBOUNCE_COUNTER_MAX config state active elapsed_ms hcounter
        helapsed⟩
  · intro calls helapsed
    refine ⟨Int.ofNat_nonneg _, ?_⟩
    exact run_preserves false DEBOUNCE_COUNTER_MAX config
      (fun state => state.counter ≤ DEBOUNCE_COUNTER_MAX)
      (fun state active elapsed_ms hstate he =>
        deferred_step_counter_le_max DEBOUNCE_COUNTER_MAX config state active elapsed_ms hstate he)
      calls helapsed zero_state (Nat.zero_le _)

/-- Witness for C9: ceiling 100 and delays 1000 and 1000, above the ceiling.  A
released switch with counter 90 reading `true` after 50 ms, and three calls
from the zero state, the first of them `update(true, 250)`. -/
theorem deferred_counter_bounded_witness :
    (zmk_debounce_update false 100 ⟨false, false, 90⟩ true 50 ⟨1000, 1000⟩).counter ≤ 100
    ∧ (run false 100 ⟨1000, 1000⟩ zero_state [(true, 250), (false, 30), (true, 45)]).counter
        ≤ 100 :=
  ⟨((deferred_counter_bounded 100 ⟨1000, 1000⟩).1 ⟨false, false, 90⟩ true 50 (by decide)
      (by decide) (by decide)).2,
   ((deferred_counter_bounded 100 ⟨1000, 1000⟩).2 [(true, 250), (false, 30), (true, 45)]
      (by decide)).2⟩

/-- C10 fails on the code: Eager build with ceiling 65535, press delay 5 and
release delay 70000.  The first call `update(true, 1)` from the zero state
assigns the release delay to the counter as it is, so the counter is 70000,
above the ceiling. -/
theorem eager_load_exceeds_counter_max :
    zero_state.counter ≤ 65535
    ∧ zmk_debounce_update true 65535 zero_state true 1 ⟨5, 70000⟩ =
        { pressed := true, changed := true, counter := 70000 }
    ∧ ¬ (zmk_debounce_update true 65535 zero_state true 1 ⟨5, 70000⟩).counter ≤ 65535 := by
  decide

/-! ## The `changed` flag and the queries -/

/-- Either build: a call either keeps `pressed` and reports no change, or
negates `pressed` and reports a change. -/
theorem update_keeps_or_flips (EAGER : Bool) (DEBOUNCE_COUNTER_MAX : Nat)
    (state : zmk_debounce_state) (active : Bool) (elapsed_ms : Int)
    (config : zmk_debounce_config) :
    ((zmk_debounce_update EAGER DEBOUNCE_COUNTER_MAX state active elapsed_ms config).pressed
        = state.pressed
      ∧ (zmk_debounce_update EAGER DEBOUNCE_COUNTER_MAX state active elapsed_ms config).changed
        = false)
    ∨ ((zmk_debounce_update EAGER DEBOUNCE_COUNTER_MAX state active elapsed_ms config).pressed
        = (!state.pressed)
      ∧ (zmk_debounce_update EAGER DEBOUNCE_COUNTER_MAX state active elapsed_ms config).changed
        = true) := by
  by_cases hraw : active = state.pressed
  · left
    rw [update_agree EAGER DEBOUNCE_COUNTER_MAX state active elapsed_ms config hraw]
    exact ⟨rfl, rfl⟩
  · cases EAGER
    · rcases Nat.lt_or_ge state.counter (get_threshold state config) with hlt | hge
      · left
        rw [update_deferred_below DEBOUNCE_COUNTER_MAX state active elapsed_ms config hraw hlt]
        exact ⟨rfl, rfl⟩
      · right
        rw [update_deferred_reached DEBOUNCE_COUNTER_MAX state active elapsed_ms config hraw hge]
        exact ⟨rfl, rfl⟩
    · by_cases h0 : state.counter = 0
      · right
        rw [update_eager_reset DEBOUNCE_COUNTER_MAX state active elapsed_ms config hraw h0]
        exact ⟨rfl, rfl⟩
      · rcases Nat.lt_or_ge state.counter
          (config.debounce_release_ms + config.debounce_press_ms) with hlt | hge
        · left
          rw [update_eager_below DEBOUNCE_COUNTER_MAX state active elapsed_ms config hraw h0 hlt]
          exact ⟨rfl, rfl⟩
        · right
          rw [update_eager_reached DEBOUNCE_COUNTER_MAX state active elapsed_ms config hraw h0
            hge]
          exact ⟨rfl, rfl⟩

/-- C11: either build, every state, reading and non-negative elapsed time.
After `zmk_debounce_update` the `changed` flag is true exactly when the
resulting `pressed` differs from the `pressed` value before the call; in terms
of the queries, `zmk_debounce_get_changed` of the new state equals the
inequality of `zmk_debounce_is_pressed` of the new and the old state. -/
theorem changed_iff_pressed_differs (CONFIG_ZMK_DEBOUNCE_EAGER : Bool)
    (DEBOUNCE_COUNTER_MAX : Nat) (config : zmk_debounce_config) (state : zmk_debounce_state)
    (active : Bool) (elapsed_ms : Int) (helapsed : 0 ≤ elapsed_ms) :
    ((zmk_debounce_update CONFIG_ZMK_DEBOUNCE_EAGER DEBOUNCE_COUNTER_MAX state active elapsed_ms
          config).changed = true
      ↔ (zmk_debounce_update CONFIG_ZMK_DEBOUNCE_EAGER DEBOUNCE_COUNTER_MAX state active
          elapsed_ms config).pressed ≠ state.pressed)
    ∧ zmk_debounce_get_changed
        (zmk_debounce_update CONFIG_ZMK_DEBOUNCE_EAGER DEBOUNCE_COUNTER_MAX state active
          elapsed_ms config)
      = (zmk_debounce_is_pressed
          (zmk_debounce_update CONFIG_ZMK_DEBOUNCE_EAGER DEBOUNCE_COUNTER_MAX state active
            elapsed_ms config)
        != zmk_debounce_is_pressed state) := by
  have _ := helapsed
  unfold zmk_debounce_get_changed zmk_debounce_is_pressed
  rcases update_keeps_or_flips CONFIG_ZMK_DEBOUNCE_EAGER DEBOUNCE_COUNTER_MAX state active
    elapsed_ms config with ⟨hp, hc⟩ | ⟨hp, hc⟩
  · rw [hp, hc]
    simp
  · rw [hp, hc]
    cases state.pressed <;> simp

/-- Witness for C11: Deferred build, delays 5 and 5; a released switch with
counter 6 reading `true` after 2 ms flips and reports the change. -/
theorem changed_iff_pressed_differs_witness :
    ((zmk_debounce_update false 65535 ⟨false, false, 6⟩ true 2 ⟨5, 5⟩).changed = true
      ↔ (zmk_debounce_update false 65535 ⟨false, false, 6⟩ true 2 ⟨5, 5⟩).pressed ≠ false)
    ∧ zmk_debounce_get_changed (zmk_debounce_update false 65535 ⟨false, false, 6⟩ true 2 ⟨5, 5⟩)
      = (zmk_debounce_is_pressed
          (zmk_debounce_update false 65535 ⟨false, false, 6⟩ true 2 ⟨5, 5⟩)
        != zmk_debounce_is_pressed ⟨false, false, 6⟩) :=
  changed_iff_pressed_differs false 65535 ⟨5, 5⟩ ⟨false, false, 6⟩ true 2 (by decide)

/-! ## Agreement over a sequence of calls -/

/-- Either build: after one or more calls that all read the value of `pressed`,
with non-negative elapsed times, the switch is as it was, `changed` is false
and the counter has dropped by the total elapsed time, floored at 0. -/
theorem run_agree (EAGER : Bool) (DEBOUNCE_COUNTER_MAX : Nat) (config : zmk_debounce_config)
    (elapsed : List Int) (helapsed : ∀ e ∈ elapsed, 0 ≤ e) (hne : elapsed ≠ [])
    (state : zmk_debounce_state) :
    run EAGER DEBOUNCE_COUNTER_MAX config state (constant_reading state.pressed elapsed) =
      { pressed := state.pressed, changed := false,
        counter := (max ((state.counter : Int) - elapsed.sum) 0).toNat } := by
  induction elapsed generalizing state with
  | nil => exact absurd rfl hne
  | cons e rest ih =>
    have he : 0 ≤ e := helapsed e (List.mem_cons_self _ _)
    have hrest : ∀ x ∈ rest, 0 ≤ x := fun x hx => helapsed x (List.mem_cons_of_mem _ hx)
    have hstep := update_agree EAGER DEBOUNCE_COUNTER_MAX state state.pressed e config rfl
    by_cases hr : rest = []
    · subst hr
      simp only [constant_reading, List.map_cons, List.map_nil, run, hstep, List.sum_cons,
        List.sum_nil, add_zero]
    · have hsum : 0 ≤ rest.sum := List.sum_nonneg hrest
      have ih2 := ih hrest hr
        { pressed := state.pressed, changed := false,
          counter := (max ((state.counter : Int) - e) 0).toNat }
      simp only [constant_reading, List.map_cons, run, hstep, List.sum_cons] at ih2 ⊢
      rw [ih2]
      simp only [zmk_debounce_state.mk.injEq, true_and]
      omega

/-- C12: either build, an initial state with counter `c`, and `N` calls that all
read the initial value of `pressed`, with non-negative elapsed times.  After
every one of the calls `pressed` has its initial value and `changed` is false,
and the final counter is `max (c - (e1 + ... + eN)) 0`. -/
theorem agreement_is_stable (CONFIG_ZMK_DEBOUNCE_EAGER : Bool) (DEBOUNCE_COUNTER_MAX : Nat)
    (config : zmk_debounce_config) (state : zmk_debounce_state) (elapsed : List Int)
    (helapsed : ∀ e ∈ elapsed, 0 ≤ e) :
    (∀ n, n < elapsed.length →
      (run CONFIG_ZMK_DEBOUNCE_EAGER DEBOUNCE_COUNTER_MAX config state
          (constant_reading state.pressed (elapsed.take (n + 1)))).pressed = state.pressed
      ∧ (run CONFIG_ZMK_DEBOUNCE_EAGER DEBOUNCE_COUNTER_MAX config state
          (constant_reading state.pressed (elapsed.take (n + 1)))).changed = false)
    ∧ ((run CONFIG_ZMK_DEBOUNCE_EAGER DEBOUNCE_COUNTER_MAX config state
          (constant_reading state.pressed elapsed)).counter : Int)
        = max ((state.counter : Int) - elapsed.sum) 0 := by
  constructor
  · intro n hn
    have hne : elapsed.take (n + 1) ≠ [] := by
      intro h
      have hlen := congrArg List.length h
      simp only [List.length_take, List.length_nil] at hlen
      omega
    rw [run_agree CONFIG_ZMK_DEBOUNCE_EAGER DEBOUNCE_COUNTER_MAX config (elapsed.take (n + 1))
      (fun e he => helapsed e (List.mem_of_mem_take he)) hne state]
    exact ⟨rfl, rfl⟩
  · by_cases hne : elapsed = []
    · subst hne
      simp [constant_reading, run]
    · rw [run_agree CONFIG_ZMK_DEBOUNCE_EAGER DEBOUNCE_COUNTER_MAX config elapsed helapsed hne
        state]
      exact Int.toNat_of_nonneg (le_max_right _ _)

/-- Witness for C12: Eager build, a pressed switch that has just changed, with
counter 7, reading `true` after 3, 2 and 5 ms: still pressed and unchanged
after the second call, and counter `max (7 - 10) 0` at the end. -/
theorem agreement_is_stable_witness :
    ((run true 65535 ⟨5, 5⟩ ⟨true, true, 7⟩
          (constant_reading true (([3, 2, 5] : List Int).take 2))).pressed = true
      ∧ (run true 65535 ⟨5, 5⟩ ⟨true, true, 7⟩
          (constant_reading true (([3, 2, 5] : List Int).take 2))).changed = false)
    ∧ ((run true 65535 ⟨5, 5⟩ ⟨true, true, 7⟩ (constant_reading true [3, 2, 5])).counter : Int)
        = max ((((7 : Nat) : Int)) - ([3, 2, 5] : List Int).sum) 0 :=
  ⟨(agreement_is_stable true 65535 ⟨5, 5⟩ ⟨true, true, 7⟩ [3, 2, 5] (by decide)).1 1
      (by decide),
   (agreement_is_stable true 65535 ⟨5, 5⟩ ⟨true, true, 7⟩ [3, 2, 5] (by decide)).2⟩

/-! ## Queries -/

/-- C13: the three queries.  `zmk_debounce_is_active` is true exactly when the
switch is pressed or the counter is positive; `zmk_debounce_is_pressed` and
`zmk_debounce_get_changed` return the fields `pressed` and `changed`; the zero
state is not active, not pressed and not changed. -/
theorem queries_read_the_state (state : zmk_debounce_state) :
    (zmk_debounce_is_active state = true ↔ (state.pressed = true ∨ state.counter > 0))
    ∧ zmk_debounce_is_pressed state = state.pressed
    ∧ zmk_debounce_get_changed state = state.changed
    ∧ zmk_debounce_is_active zero_state = false
    ∧ zmk_debounce_is_pressed zero_state = false
    ∧ zmk_debounce_get_changed zero_state = false := by
  refine ⟨?_, rfl, rfl, rfl, rfl, rfl⟩
  simp [zmk_debounce_is_active]

/-! ## `changed` is recomputed by every call -/

/-- C14: either build, every config, reading and elapsed time.  Two input
states with the same `pressed` and the same counter that differ only in
`changed` are taken to the same state. -/
theorem changed_is_not_history (CONFIG_ZMK_DEBOUNCE_EAGER : Bool) (DEBOUNCE_COUNTER_MAX : Nat)
    (config : zmk_debounce_config) (active : Bool) (elapsed_ms : Int)
    (first second : zmk_debounce_state) (hpressed : first.pressed = second.pressed)
    (hcounter : first.counter = second.counter) (hchanged : first.changed ≠ second.changed) :
    zmk_debounce_update CONFIG_ZMK_DEBOUNCE_EAGER DEBOUNCE_COUNTER_MAX first active elapsed_ms
        config
      = zmk_debounce_update CONFIG_ZMK_DEBOUNCE_EAGER DEBOUNCE_COUNTER_MAX second active
        elapsed_ms config := by
  have _ := hchanged
  obtain ⟨p1, ch1, c1⟩ := first
  obtain ⟨p2, ch2, c2⟩ := second
  simp only at hpressed hcounter
  subst hpressed hcounter
  rfl

/-- Witness for C14: Eager build, delays 5 and 5; a pressed switch with counter
5 reading `false` after 2 ms, once with `changed` true and once with `changed`
false. -/
theorem changed_is_not_history_witness :
    zmk_debounce_update true 65535 ⟨true, true, 5⟩ false 2 ⟨5, 5⟩
      = zmk_debounce_update true 65535 ⟨true, false, 5⟩ false 2 ⟨5, 5⟩ :=
  changed_is_not_history true 65535 ⟨5, 5⟩ false 2 ⟨true, true, 5⟩ ⟨true, false, 5⟩ rfl rfl
    (by decide)

/-! ## Eager build: the flip back after an eager press -/

/-- A constant reading of one more call. -/
theorem constant_reading_take_succ (active : Bool) (elapsed : List Int) (n : Nat)
    (hn : n < elapsed.length) :
    constant_reading active (elapsed.take (n + 1)) =
      constant_reading active (elapsed.take n) ++ [(active, elapsed.get ⟨n, hn⟩)] := by
  have h : elapsed.take (n + 1) = elapsed.take n ++ [elapsed.get ⟨n, hn⟩] := by
    rw [← List.take_concat_get elapsed n hn]
    simp
  rw [h]
  unfold constant_reading
  rw [List.map_append]
  rfl

/-- Eager build, from the zero state: a first call that reads `true`, then `n`
calls that read `false`.  As long as the release delay plus the elapsed time of
the earlier `false` calls is below the combined delay, the switch is still
pressed and the counter holds the release delay plus the elapsed time of the
`false` calls, saturated; `changed` is true only right after the first call. -/
theorem eager_hold_below (DEBOUNCE_COUNTER_MAX : Nat) (config : zmk_debounce_config)
    (first_ms : Int) (elapsed : List Int)
    (hrelease : 0 < config.debounce_release_ms)
    (hceiling : config.debounce_release_ms ≤ DEBOUNCE_COUNTER_MAX)
    (helapsed : ∀ e ∈ elapsed, 0 ≤ e) (n : Nat) (hn : n ≤ elapsed.length)
    (hbelow : ∀ k < n, (config.debounce_release_ms : Int) + (elapsed.take k).sum
      < (config.debounce_press_ms : Int) + (config.debounce_release_ms : Int)) :
    run true DEBOUNCE_COUNTER_MAX config zero_state
        ((true, first_ms) :: constant_reading false (elapsed.take n)) =
      { pressed := true, changed := decide (n = 0),
        counter := (min ((config.debounce_release_ms : Int) + (elapsed.take n).sum)
          (DEBOUNCE_COUNTER_MAX : Int)).toNat } := by
  induction n with
  | zero =>
    simp only [List.take_zero, constant_reading, List.map_nil, run, List.sum_nil, add_zero]
    rw [update_eager_reset DEBOUNCE_COUNTER_MAX zero_state true first_ms config (by decide) rfl]
    simp only [zero_state, get_counter, Bool.not_false, if_true, decide_True,
      zmk_debounce_state.mk.injEq, true_and]
    omega
  | succ m ih =>
    have hm : m < elapsed.length := hn
    have ihm := ih (Nat.le_of_lt hm) (fun k hk => hbelow k (Nat.lt_succ_of_lt hk))
    have hlt := hbelow m (Nat.lt_succ_self m)
    have hs := sum_take_nonneg elapsed helapsed m
    have he := helapsed _ (List.get_mem elapsed m hm)
    rw [constant_reading_take_succ false elapsed m hm, ← List.cons_append, run_append, ihm,
      sum_take_succ elapsed m hm]
    simp only [run]
    rw [update_eager_below]
    · simp only [Nat.succ_ne_zero, decide_False, zmk_debounce_state.mk.injEq, true_and]
      omega
    · simp
    · simp only
      omega
    · simp only
      omega

/-- C15: Eager build with positive delays whose sum is at most the ceiling.
From the zero state a first call reading `true` leaves the switch pressed.  Of
the following calls, all reading `false` with non-negative elapsed times, call
`n + 1` keeps the switch pressed with `changed` false while
`release + e1 + ... + en` is below `press + release`, and the first call for
which `release + e1 + ... + en` has reached `press + release` releases the
switch with counter 0 and `changed` true. -/
theorem eager_second_flip (DEBOUNCE_COUNTER_MAX : Nat) (config : zmk_debounce_config)
    (first_ms : Int) (elapsed : List Int) (n : Nat)
    (hpress : 0 < config.debounce_press_ms) (hrelease : 0 < config.debounce_release_ms)
    (hceiling : config.debounce_press_ms + config.debounce_release_ms ≤ DEBOUNCE_COUNTER_MAX)
    (hfirst : 0 ≤ first_ms) (helapsed : ∀ e ∈ elapsed, 0 ≤ e) (hn : n < elapsed.length) :
    (run true DEBOUNCE_COUNTER_MAX config zero_state [(true, first_ms)]).pressed = true
    ∧ ((config.debounce_release_ms : Int) + (elapsed.take n).sum
          < (config.debounce_press_ms : Int) + (config.debounce_release_ms : Int) →
        (run true DEBOUNCE_COUNTER_MAX config zero_state
            ((true, first_ms) :: constant_reading false (elapsed.take (n + 1)))).pressed = true
        ∧ (run true DEBOUNCE_COUNTER_MAX config zero_state
            ((true, first_ms) :: constant_reading false (elapsed.take (n + 1)))).changed = false)
    ∧ ((∀ k < n, (config.debounce_release_ms : Int) + (elapsed.take k).sum
          < (config.debounce_press_ms : Int) + (config.debounce_release_ms : Int)) →
        (config.debounce_press_ms : Int) + (config.debounce_release_ms : Int)
          ≤ (config.debounce_release_ms : Int) + (elapsed.take n).sum →
        run true DEBOUNCE_COUNTER_MAX config zero_state
            ((true, first_ms) :: constant_reading false (elapsed.take (n + 1))) =
          { pressed := false, changed := true, counter := 0 }) := by
  have _ := hfirst
  have _ := hpress
  have hle : config.debounce_release_ms ≤ DEBOUNCE_COUNTER_MAX := by omega
  refine ⟨?_, ?_, ?_⟩
  · simp only [run]
    rw [update_eager_reset DEBOUNCE_COUNTER_MAX zero_state true first_ms config (by decide) rfl]
    rfl
  · intro hlt
    have hall : ∀ k < n + 1, (config.debounce_release_ms : Int) + (elapsed.take k).sum
        < (config.debounce_press_ms : Int) + (config.debounce_release_ms : Int) := by
      intro k hk
      have hmono := sum_take_mono elapsed helapsed k n (Nat.lt_succ_iff.mp hk)
      omega
    rw [eager_hold_below DEBOUNCE_COUNTER_MAX config first_ms elapsed hrelease hle helapsed
      (n + 1) hn hall]
    exact ⟨rfl, by simp⟩
  · intro hbelow hreach
    have hs := sum_take_nonneg elapsed helapsed n
    rw [constant_reading_take_succ false elapsed n hn, ← List.cons_append, run_append,
      eager_hold_below DEBOUNCE_COUNTER_MAX config first_ms elapsed hrelease hle helapsed n
        (Nat.le_of_lt hn) hbelow]
    simp only [run]
    rw [update_eager_reached]
    · rfl
    · simp
    · simp only
      omega
    · simp only
      omega

/-- Witness for C15: delays press 5 and release 3 (combined 8), first call
`update(true, 1)`, then `false` readings after 2, 2, 2 and 2 ms.  Before the
third `false` call `3 + 4 < 8`, so it keeps the switch pressed; before the
fourth `3 + 6 ≥ 8`, and it is the first such call, so it releases the switch. -/
theorem eager_second_flip_witness :
    (run true 65535 ⟨5, 3⟩ zero_state [(true, 1)]).pressed = true
    ∧ ((run true 65535 ⟨5, 3⟩ zero_state
          ((true, 1) :: constant_reading false (([2, 2, 2, 2] : List Int).take 3))).pressed = true
      ∧ (run true 65535 ⟨5, 3⟩ zero_state
          ((true, 1) :: constant_reading false (([2, 2, 2, 2] : List Int).take 3))).changed
          = false)
    ∧ run true 65535 ⟨5, 3⟩ zero_state
          ((true, 1) :: constant_reading false (([2, 2, 2, 2] : List Int).take 4)) =
        { pressed := false, changed := true, counter := 0 } :=
  ⟨(eager_second_flip 65535 ⟨5, 3⟩ 1 [2, 2, 2, 2] 2 (by decide) (by decide) (by decide)
      (by decide) (by decide) (by decide)).1,
   (eager_second_flip 65535 ⟨5, 3⟩ 1 [2, 2, 2, 2] 2 (by decide) (by decide) (by decide)
      (by decide) (by decide) (by decide)).2.1 (by decide),
   (eager_second_flip 65535 ⟨5, 3⟩ 1 [2, 2, 2, 2] 3 (by decide) (by decide) (by decide)
      (by decide) (by decide) (by decide)).2.2 (by decide) (by decide)⟩

/-! ## Deferred build: the call on which the flip lands -/

/-- The state after the first `n + 1` calls of a constant reading. -/
theorem run_constant_take_succ (EAGER : Bool) (DEBOUNCE_COUNTER_MAX : Nat)
    (config : zmk_debounce_config) (state : zmk_debounce_state) (active : Bool)
    (elapsed : List Int) (n : Nat) (hn : n < elapsed.length) :
    run EAGER DEBOUNCE_COUNTER_MAX config state (constant_reading active (elapsed.take (n + 1))) =
      zmk_debounce_update EAGER DEBOUNCE_COUNTER_MAX
        (run EAGER DEBOUNCE_COUNTER_MAX config state (constant_reading active (elapsed.take n)))
        active (elapsed.get ⟨n, hn⟩) config := by
  rw [constant_reading_take_succ active elapsed n hn, run_append]
  rfl

/-- Deferred build with the press delay at most the ceiling, from the zero
state with every reading `true`: once the elapsed time of the earlier calls has
reached the press delay, the switch is pressed and the counter is 0. -/
theorem deferred_after_reach (DEBOUNCE_COUNTER_MAX : Nat) (config : zmk_debounce_config)
    (elapsed : List Int) (hpress : config.debounce_press_ms ≤ DEBOUNCE_COUNTER_MAX)
    (helapsed : ∀ e ∈ elapsed, 0 ≤ e) (n : Nat) (hn : n < elapsed.length)
    (hreach : (config.debounce_press_ms : Int) ≤ (elapsed.take n).sum) :
    (run false DEBOUNCE_COUNTER_MAX config zero_state
        (constant_reading true (elapsed.take (n + 1)))).pressed = true
    ∧ (run false DEBOUNCE_COUNTER_MAX config zero_state
        (constant_reading true (elapsed.take (n + 1)))).counter = 0 := by
  induction n with
  | zero =>
    rw [run_constant_take_succ false DEBOUNCE_COUNTER_MAX config zero_state true elapsed 0 hn]
    simp only [List.take_zero, constant_reading, List.map_nil, run, List.sum_nil] at hreach ⊢
    rw [update_deferred_reached DEBOUNCE_COUNTER_MAX zero_state true _ config (by decide)
      (by simp only [get_threshold, zero_state, Bool.false_eq_true, if_false]; omega)]
    exact ⟨rfl, rfl⟩
  | succ m ih =>
    have hm : m < elapsed.length := Nat.lt_of_succ_lt hn
    have he := helapsed _ (List.get_mem elapsed (m + 1) hn)
    rw [run_constant_take_succ false DEBOUNCE_COUNTER_MAX config zero_state true elapsed (m + 1)
      hn]
    by_cases hprev : (config.debounce_press_ms : Int) ≤ (elapsed.take m).sum
    · obtain ⟨hp, hc⟩ := ih hm hprev
      rw [update_agree false DEBOUNCE_COUNTER_MAX _ true _ config hp.symm, hp, hc]
      refine ⟨rfl, ?_⟩
      simp only
      omega
    · have hall : ∀ k < m + 1, min (elapsed.take k).sum (DEBOUNCE_COUNTER_MAX : Int)
          < (config.debounce_press_ms : Int) := by
        intro k hk
        have hmono := sum_take_mono elapsed helapsed k m (Nat.lt_succ_iff.mp hk)
        omega
      have hs := sum_take_nonneg elapsed helapsed (m + 1)
      rw [deferred_hold_below DEBOUNCE_COUNTER_MAX config elapsed helapsed (m + 1)
        (Nat.le_of_lt hn) hall]
      rw [update_deferred_reached]
      · exact ⟨rfl, rfl⟩
      · simp
      · simp only [get_threshold, Bool.false_eq_true, if_false]
        omega

/-- C16: Deferred build with the press delay at most the ceiling, from the zero
state with every reading `true` and non-negative elapsed times.  Call `n + 1`
makes `pressed` true, with `changed` true and counter 0, if and only if `n` is
the first index at which the elapsed time of the earlier calls,
`e1 + ... + en`, has reached the press delay: the test leaves out the elapsed
time of the call itself.  Before that call the switch was released, and every
earlier call leaves `pressed` false, `changed` false and the counter at
`min (e1 + ... + ek) MAX`. -/
theorem deferred_flip_lands_after (DEBOUNCE_COUNTER_MAX : Nat) (config : zmk_debounce_config)
    (elapsed : List Int) (n : Nat) (hpress : config.debounce_press_ms ≤ DEBOUNCE_COUNTER_MAX)
    (helapsed : ∀ e ∈ elapsed, 0 ≤ e) (hn : n < elapsed.length) :
    (run false DEBOUNCE_COUNTER_MAX config zero_state
          (constant_reading true (elapsed.take (n + 1))) =
        { pressed := true, changed := true, counter := 0 }
      ↔ ((config.debounce_press_ms : Int) ≤ (elapsed.take n).sum
        ∧ ∀ k < n, (elapsed.take k).sum < (config.debounce_press_ms : Int)))
    ∧ ((∀ k < n, (elapsed.take k).sum < (config.debounce_press_ms : Int)) →
        (run false DEBOUNCE_COUNTER_MAX config zero_state
          (constant_reading true (elapsed.take n))).pressed = false)
    ∧ ((elapsed.take n).sum < (config.debounce_press_ms : Int) →
        run false DEBOUNCE_COUNTER_MAX config zero_state
            (constant_reading true (elapsed.take (n + 1))) =
          { pressed := false, changed := false,
            counter := (min (elapsed.take (n + 1)).sum (DEBOUNCE_COUNTER_MAX : Int)).toNat }) := by
  have hbefore : (∀ k < n, (elapsed.take k).sum < (config.debounce_press_ms : Int)) →
      run false DEBOUNCE_COUNTER_MAX config zero_state (constant_reading true (elapsed.take n)) =
        { pressed := false, changed := false,
          counter := (min (elapsed.take n).sum (DEBOUNCE_COUNTER_MAX : Int)).toNat } := by
    intro hfirst
    apply deferred_hold_below DEBOUNCE_COUNTER_MAX config elapsed helapsed n (Nat.le_of_lt hn)
    intro k hk
    have := hfirst k hk
    omega
  have hearlier : (elapsed.take n).sum < (config.debounce_press_ms : Int) →
      run false DEBOUNCE_COUNTER_MAX config zero_state
          (constant_reading true (elapsed.take (n + 1))) =
        { pressed := false, changed := false,
          counter := (min (elapsed.take (n + 1)).sum (DEBOUNCE_COUNTER_MAX : Int)).toNat } := by
    intro hlt
    apply deferred_hold_below DEBOUNCE_COUNTER_MAX config elapsed helapsed (n + 1) hn
    intro k hk
    have hmono := sum_take_mono elapsed helapsed k n (Nat.lt_succ_iff.mp hk)
    omega
  refine ⟨⟨?_, ?_⟩, ?_, hearlier⟩
  · intro hflip
    have hreach : (config.debounce_press_ms : Int) ≤ (elapsed.take n).sum := by
      by_contra hnot
      rw [hearlier (by omega)] at hflip
      simp at hflip
    refine ⟨hreach, ?_⟩
    intro k hk
    by_contra hnot
    obtain ⟨m, rfl⟩ : ∃ m, n = m + 1 := ⟨n - 1, by omega⟩
    have hm : m < elapsed.length := Nat.lt_of_succ_lt hn
    have hmono := sum_take_mono elapsed helapsed k m (Nat.lt_succ_iff.mp hk)
    obtain ⟨hp, _⟩ := deferred_after_reach DEBOUNCE_COUNTER_MAX config elapsed hpress helapsed m
      hm (by omega)
    rw [run_constant_take_succ false DEBOUNCE_COUNTER_MAX config zero_state true elapsed (m + 1)
      hn, update_agree false DEBOUNCE_COUNTER_MAX _ true _ config hp.symm] at hflip
    simp at hflip
  · rintro ⟨hreach, hfirst⟩
    have hs := sum_take_nonneg elapsed helapsed n
    rw [run_constant_take_succ false DEBOUNCE_COUNTER_MAX config zero_state true elapsed n hn,
      hbefore hfirst]
    rw [update_deferred_reached]
    · rfl
    · simp
    · simp only [get_threshold, Bool.false_eq_true, if_false]
      omega
  · intro hfirst
    rw [hbefore hfirst]

/-- Witness for C16: delays 5 and 5, four calls `update(true, 2)`.  The fourth
call is the first with `e1 + e2 + e3 = 6 ≥ 5`, so it flips; the third call,
with `e1 + e2 = 4 < 5` before it, leaves counter 6 and the switch released. -/
theorem deferred_flip_lands_after_witness :
    run false 65535 ⟨5, 5⟩ zero_state (constant_reading true (([2, 2, 2, 2] : List Int).take 4)) =
        { pressed := true, changed := true, counter := 0 }
    ∧ (run false 65535 ⟨5, 5⟩ zero_state
        (constant_reading true (([2, 2, 2, 2] : List Int).take 3))).pressed = false
    ∧ run false 65535 ⟨5, 5⟩ zero_state (constant_reading true (([2, 2, 2, 2] : List Int).take 3)) =
        { pressed := false, changed := false,
          counter := (min (([2, 2, 2, 2] : List Int).take 3).sum ((65535 : Nat) : Int)).toNat } :=
  ⟨(deferred_flip_lands_after 65535 ⟨5, 5⟩ [2, 2, 2, 2] 3 (by decide) (by decide)
      (by decide)).1.2 (by decide),
   (deferred_flip_lands_after 65535 ⟨5, 5⟩ [2, 2, 2, 2] 3 (by decide) (by decide)
      (by decide)).2.1 (by decide),
   (deferred_flip_lands_after 65535 ⟨5, 5⟩ [2, 2, 2, 2] 2 (by decide) (by decide)
      (by decide)).2.2 (by decide)⟩

/-! ## Deferred build: a delay above the counter ceiling -/

/-- Deferred build: when the delay for leaving the current state is above the
ceiling, a call from a state whose counter is within the ceiling keeps
`pressed`, clears `changed` and keeps the counter within the ceiling. -/
theorem deferred_step_stuck (DEBOUNCE_COUNTER_MAX : Nat) (config : zmk_debounce_config)
    (state : zmk_debounce_state) (active : Bool) (elapsed_ms : Int)
    (habove : DEBOUNCE_COUNTER_MAX < get_threshold state config)
    (hcounter : state.counter ≤ DEBOUNCE_COUNTER_MAX) (helapsed : 0 ≤ elapsed_ms) :
    (zmk_debounce_update false DEBOUNCE_COUNTER_MAX state active elapsed_ms config).pressed
        = state.pressed
    ∧ (zmk_debounce_update false DEBOUNCE_COUNTER_MAX state active elapsed_ms config).changed
        = false
    ∧ (zmk_debounce_update false DEBOUNCE_COUNTER_MAX state active elapsed_ms config).counter
        ≤ DEBOUNCE_COUNTER_MAX := by
  refine ⟨?_, ?_, deferred_step_counter_le_max DEBOUNCE_COUNTER_MAX config state active elapsed_ms
    hcounter helapsed⟩
  · by_cases hraw : active = state.pressed
    · rw [update_agree false DEBOUNCE_COUNTER_MAX state active elapsed_ms config hraw]
    · rw [update_deferred_below DEBOUNCE_COUNTER_MAX state active elapsed_ms config hraw
        (by omega)]
  · by_cases hraw : active = state.pressed
    · rw [update_agree false DEBOUNCE_COUNTER_MAX state active elapsed_ms config hraw]
    · rw [update_deferred_below DEBOUNCE_COUNTER_MAX state active elapsed_ms config hraw
        (by omega)]

/-- Deferred build: when the delay for leaving the state `held` is above the
ceiling, every sequence of calls from a state with `pressed = held` and the
counter within the ceiling ends with `pressed = held` and the counter within
the ceiling, and with `changed` false when at least one call was made. -/
theorem deferred_run_stuck (DEBOUNCE_COUNTER_MAX : Nat) (config : zmk_debounce_config)
    (held : Bool)
    (habove : DEBOUNCE_COUNTER_MAX <
      (if held then config.debounce_release_ms else config.debounce_press_ms))
    (calls : List (Bool × Int)) (helapsed : ∀ call ∈ calls, 0 ≤ call.2)
    (state : zmk_debounce_state) (hheld : state.pressed = held)
    (hcounter : state.counter ≤ DEBOUNCE_COUNTER_MAX) :
    (run false DEBOUNCE_COUNTER_MAX config state calls).pressed = held
    ∧ (run false DEBOUNCE_COUNTER_MAX config state calls).counter ≤ DEBOUNCE_COUNTER_MAX
    ∧ (calls ≠ [] → (run false DEBOUNCE_COUNTER_MAX config state calls).changed = false) := by
  induction calls generalizing state with
  | nil => exact ⟨hheld, hcounter, fun h => absurd rfl h⟩
  | cons call rest ih =>
    have hcall : 0 ≤ call.2 := helapsed call (List.mem_cons_self _ _)
    have hrest : ∀ c ∈ rest, 0 ≤ c.2 := fun c hc => helapsed c (List.mem_cons_of_mem _ hc)
    have hthr : DEBOUNCE_COUNTER_MAX < get_threshold state config := by
      simp only [get_threshold, hheld]
      exact habove
    obtain ⟨hp, hc, hle⟩ := deferred_step_stuck DEBOUNCE_COUNTER_MAX config state call.1 call.2
      hthr hcounter hcall
    obtain ⟨ihp, ihle, ihc⟩ := ih hrest _ (hp.trans hheld) hle
    refine ⟨ihp, ihle, fun _ => ?_⟩
    by_cases hr : rest = []
    · subst hr
      exact hc
    · exact ihc hr

/-- C17: Deferred build.  With the press delay above the ceiling, from a
released state whose counter is within the ceiling no sequence of calls (any
readings, non-negative elapsed times) ends with `pressed` true, and none of one
or more calls ends with `changed` true.  With the release delay above the
ceiling, a pressed switch in the same way never becomes released. -/
theorem deferred_delay_above_ceiling (DEBOUNCE_COUNTER_MAX : Nat) (config : zmk_debounce_config)
    (state : zmk_debounce_state) (calls : List (Bool × Int))
    (hcounter : state.counter ≤ DEBOUNCE_COUNTER_MAX) (helapsed : ∀ call ∈ calls, 0 ≤ call.2) :
    (DEBOUNCE_COUNTER_MAX < config.debounce_press_ms → state.pressed = false →
      (run false DEBOUNCE_COUNTER_MAX config state calls).pressed = false
      ∧ (calls ≠ [] → (run false DEBOUNCE_COUNTER_MAX config state calls).changed = false))
    ∧ (DEBOUNCE_COUNTER_MAX < config.debounce_release_ms → state.pressed = true →
      (run false DEBOUNCE_COUNTER_MAX config state calls).pressed = true
      ∧ (calls ≠ [] → (run false DEBOUNCE_COUNTER_MAX config state calls).changed = false)) := by
  constructor
  · intro habove hreleased
    have h := deferred_run_stuck DEBOUNCE_COUNTER_MAX config false (by simpa using habove) calls
      helapsed state hreleased hcounter
    exact ⟨h.1, h.2.2⟩
  · intro habove hpressed
    have h := deferred_run_stuck DEBOUNCE_COUNTER_MAX config true (by simpa using habove) calls
      helapsed state hpressed hcounter
    exact ⟨h.1, h.2.2⟩

/-- Witness for C17: ceiling 100.  With press delay 101, a released switch
reading `true` after 60, 60 and 1000 ms is still released and unchanged; with
release delay 101, a pressed switch reading `false` after the same times is
still pressed and unchanged. -/
theorem deferred_delay_above_ceiling_witness :
    ((run false 100 ⟨101, 5⟩ ⟨false, false, 0⟩ [(true, 60), (true, 60), (true, 1000)]).pressed
        = false
      ∧ (run false 100 ⟨101, 5⟩ ⟨false, false, 0⟩ [(true, 60), (true, 60), (true, 1000)]).changed
        = false)
    ∧ ((run false 100 ⟨5, 101⟩ ⟨true, false, 0⟩ [(false, 60), (false, 60), (false, 1000)]).pressed
        = true
      ∧ (run false 100 ⟨5, 101⟩ ⟨true, false, 0⟩
          [(false, 60), (false, 60), (false, 1000)]).changed = false) :=
  have h1 := (deferred_delay_above_ceiling 100 ⟨101, 5⟩ ⟨false, false, 0⟩
    [(true, 60), (true, 60), (true, 1000)] (by decide) (by decide)).1 (by decide) rfl
  have h2 := (deferred_delay_above_ceiling 100 ⟨5, 101⟩ ⟨true, false, 0⟩
    [(false, 60), (false, 60), (false, 1000)] (by decide) (by decide)).2 (by decide) rfl
  ⟨⟨h1.1, h1.2 (by decide)⟩, ⟨h2.1, h2.2 (by decide)⟩⟩

/-! ## The saturating increment in 32-bit arithmetic -/

/-- A sum within the range of a 32-bit signed `int` is not changed by the
reduction. -/
theorem wrap_int32_of_in_range (value : Int) (hlow : -2147483648 ≤ value)
    (hhigh : value ≤ 2147483647) : wrap_int32 value = value := by
  unfold wrap_int32
  omega

/-- Where the exact sum `counter + elapsed_ms` fits a 32-bit signed `int` and
the ceiling fits the counter field, the 32-bit reading of `increment_counter`
and the exact one give the same state, whether the comparison is signed or
unsigned. -/
theorem increment_counter_int32_eq (COMPARE_SIGNED : Bool) (COUNTER_BITS : Nat)
    (DEBOUNCE_COUNTER_MAX : Nat) (state : zmk_debounce_state) (elapsed_ms : Int)
    (hfield : (DEBOUNCE_COUNTER_MAX : Int) < 2 ^ COUNTER_BITS) (helapsed : 0 ≤ elapsed_ms)
    (hsum : (state.counter : Int) + elapsed_ms ≤ 2147483647) :
    increment_counter_int32 COMPARE_SIGNED COUNTER_BITS DEBOUNCE_COUNTER_MAX state elapsed_ms =
      increment_counter DEBOUNCE_COUNTER_MAX state elapsed_ms := by
  have hwrap := wrap_int32_of_in_range ((state.counter : Int) + elapsed_ms) (by omega) hsum
  have hunsigned : ((state.counter : Int) + elapsed_ms) % 4294967296
      = (state.counter : Int) + elapsed_ms := Int.emod_eq_of_lt (by omega) (by omega)
  have htest : (if COMPARE_SIGNED then (state.counter : Int) + elapsed_ms
      else ((state.counter : Int) + elapsed_ms) % 4294967296)
      = (state.counter : Int) + elapsed_ms := by
    cases COMPARE_SIGNED
    · simpa using hunsigned
    · simp
  unfold increment_counter_int32 increment_counter
  rw [hwrap, htest]
  split
  · rfl
  · rename_i hle
    have hmod : ((state.counter : Int) + elapsed_ms) % (2 ^ COUNTER_BITS : Int)
        = (state.counter : Int) + elapsed_ms :=
      Int.emod_eq_of_lt (by omega) (by omega)
    rw [hmod]

/-- C18, as stated, fails: ceiling 65535, counter 1 and
`elapsed_ms = 2147483647`, both inside the ranges of the claim.  In 32-bit
signed arithmetic the sum `1 + 2147483647` wraps to `-2147483648`, so the
intermediate sum does wrap.  With the comparison made in signed arithmetic, as
the claim reads it, the test is false and the counter is overwritten with the
wrapped sum reduced to the counter field (0 for a 16-bit field), not with
`min (1 + 2147483647) 65535 = 65535`.  With an unsigned comparison the sum
compares as 2147483648 and the ceiling is stored. -/
theorem increment_counter_int32_wraps :
    ((1 : Nat) ≤ 65535 ∧ (0 : Int) ≤ 2147483647 ∧ (2147483647 : Int) ≤ 2 ^ 31 - 1)
    ∧ wrap_int32 (((1 : Nat) : Int) + 2147483647) = -2147483648
    ∧ wrap_int32 (((1 : Nat) : Int) + 2147483647) ≠ ((1 : Nat) : Int) + 2147483647
    ∧ min (((1 : Nat) : Int) + 2147483647) ((65535 : Nat) : Int) = 65535
    ∧ increment_counter_int32 true 16 65535 ⟨false, false, 1⟩ 2147483647 =
        { pressed := false, changed := false, counter := 0 }
    ∧ increment_counter_int32 false 16 65535 ⟨false, false, 1⟩ 2147483647 =
        { pressed := false, changed := false, counter := 65535 } := by
  have hwrap : wrap_int32 (((1 : Nat) : Int) + 2147483647) = -2147483648 := by
    unfold wrap_int32
    norm_num
  refine ⟨⟨by norm_num, by norm_num, by norm_num⟩, hwrap, ?_, by norm_num, ?_, ?_⟩
  · rw [hwrap]
    norm_num
  · unfold increment_counter_int32
    rw [hwrap]
    norm_num
  · unfold increment_counter_int32
    rw [hwrap]
    norm_num

/-- C18, amended: for a counter within the ceiling, a ceiling that fits the
counter field, and a non-negative `elapsed_ms` with
`counter + elapsed_ms ≤ 2^31 - 1`, the sum evaluated in 32-bit signed
arithmetic is the exact sum, and `increment_counter` sets the counter to
`min (counter + elapsed_ms) DEBOUNCE_COUNTER_MAX` and leaves `pressed` and
`changed` as they were, whether the comparison is signed or unsigned. -/
theorem increment_counter_int32_in_range (COMPARE_SIGNED : Bool) (COUNTER_BITS : Nat)
    (DEBOUNCE_COUNTER_MAX : Nat) (state : zmk_debounce_state) (elapsed_ms : Int)
    (hfield : (DEBOUNCE_COUNTER_MAX : Int) < 2 ^ COUNTER_BITS)
    (hcounter : state.counter ≤ DEBOUNCE_COUNTER_MAX) (helapsed : 0 ≤ elapsed_ms)
    (hsum : (state.counter : Int) + elapsed_ms ≤ 2147483647) :
    wrap_int32 ((state.counter : Int) + elapsed_ms) = (state.counter : Int) + elapsed_ms
    ∧ ((increment_counter_int32 COMPARE_SIGNED COUNTER_BITS DEBOUNCE_COUNTER_MAX state
          elapsed_ms).counter : Int)
        = min ((state.counter : Int) + elapsed_ms) (DEBOUNCE_COUNTER_MAX : Int)
    ∧ (increment_counter_int32 COMPARE_SIGNED COUNTER_BITS DEBOUNCE_COUNTER_MAX state
          elapsed_ms).pressed = state.pressed
    ∧ (increment_counter_int32 COMPARE_SIGNED COUNTER_BITS DEBOUNCE_COUNTER_MAX state
          elapsed_ms).changed = state.changed := by
  have _ := hcounter
  refine ⟨wrap_int32_of_in_range _ (by omega) hsum, ?_⟩
  rw [increment_counter_int32_eq COMPARE_SIGNED COUNTER_BITS DEBOUNCE_COUNTER_MAX state
    elapsed_ms hfield helapsed hsum, increment_counter_eq]
  refine ⟨?_, rfl, rfl⟩
  have hmin : 0 ≤ min ((state.counter : Int) + elapsed_ms) (DEBOUNCE_COUNTER_MAX : Int) := by
    omega
  exact Int.toNat_of_nonneg hmin

/-- Witness for C18 amended: a 16-bit counter field with ceiling 65535, counter
65000.  With `elapsed_ms = 2147418647` the sum is exactly `2^31 - 1`, it does
not wrap, and the counter saturates at 65535 under a signed and under an
unsigned comparison. -/
theorem increment_counter_int32_in_range_witness :
    (wrap_int32 (((65000 : Nat) : Int) + 2147418647) = ((65000 : Nat) : Int) + 2147418647
      ∧ ((increment_counter_int32 true 16 65535 ⟨false, false, 65000⟩ 2147418647).counter : Int)
          = min (((65000 : Nat) : Int) + 2147418647) ((65535 : Nat) : Int))
    ∧ ((increment_counter_int32 false 16 65535 ⟨false, false, 65000⟩ 2147418647).counter : Int)
          = min (((65000 : Nat) : Int) + 2147418647) ((65535 : Nat) : Int) :=
  have h1 := increment_counter_int32_in_range true 16 65535 ⟨false, false, 65000⟩ 2147418647
    (by norm_num) (by decide) (by decide) (by norm_num)
  have h2 := increment_counter_int32_in_range false 16 65535 ⟨false, false, 65000⟩ 2147418647
    (by norm_num) (by decide) (by decide) (by norm_num)
  ⟨⟨h1.1, h1.2.1⟩, h2.2.1⟩

/-! ## Zero elapsed time under agreement -/

/-- C19, as stated, fails: a pressed switch right after its flip (`changed`
true, counter 0) that reads `true` with `elapsed_ms = 0` is returned with
`changed` false, in the Deferred and in the Eager build, so the result is not
the input state. -/
theorem zero_elapsed_agree_counterexample :
    zmk_debounce_update false 65535 ⟨true, true, 0⟩ true 0 ⟨5, 5⟩ =
        { pressed := true, changed := false, counter := 0 }
    ∧ zmk_debounce_update false 65535 ⟨true, true, 0⟩ true 0 ⟨5, 5⟩ ≠ ⟨true, true, 0⟩
    ∧ zmk_debounce_update true 65535 ⟨true, true, 0⟩ true 0 ⟨5, 5⟩ ≠ ⟨true, true, 0⟩ := by
  decide

/-- C19, amended: either build, every config and state.  A call whose reading
agrees with `pressed` and whose elapsed time is 0 returns the input state with
`pressed` and the counter as they were and `changed` false; the result equals
the input state in all three fields exactly when the input had `changed`
false. -/
theorem zero_elapsed_agree (CONFIG_ZMK_DEBOUNCE_EAGER : Bool) (DEBOUNCE_COUNTER_MAX : Nat)
    (config : zmk_debounce_config) (state : zmk_debounce_state) (active : Bool)
    (hraw : active = state.pressed) :
    zmk_debounce_update CONFIG_ZMK_DEBOUNCE_EAGER DEBOUNCE_COUNTER_MAX state active 0 config =
        { pressed := state.pressed, changed := false, counter := state.counter }
    ∧ (zmk_debounce_update CONFIG_ZMK_DEBOUNCE_EAGER DEBOUNCE_COUNTER_MAX state active 0 config
          = state
        ↔ state.changed = false) := by
  have hstep : zmk_debounce_update CONFIG_ZMK_DEBOUNCE_EAGER DEBOUNCE_COUNTER_MAX state active 0
      config = { pressed := state.pressed, changed := false, counter := state.counter } := by
    rw [update_agree CONFIG_ZMK_DEBOUNCE_EAGER DEBOUNCE_COUNTER_MAX state active 0 config hraw]
    simp
  refine ⟨hstep, ?_⟩
  rw [hstep]
  obtain ⟨p, ch, c⟩ := state
  simp only [zmk_debounce_state.mk.injEq, true_and, and_true]
  exact eq_comm

/-- Witness for C19 amended: Eager build, a released switch with counter 4 and
`changed` false reading `false` with `elapsed_ms = 0` is returned as it was. -/
theorem zero_elapsed_agree_witness :
    zmk_debounce_update true 65535 ⟨false, false, 4⟩ false 0 ⟨5, 5⟩ = ⟨false, false, 4⟩ :=
  ((zero_elapsed_agree true 65535 ⟨5, 5⟩ ⟨false, false, 4⟩ false rfl).2).2 rfl

end ZmkDebounce
